import Mathlib

/-! OpenCyber AI dashboard: a shallow embedding of the browser code.

The development follows the four source files under `src/frontend/`:

* `platform_enhancements_complete.js`: `checkEthiopianContext`, `determineOrganizationType`;
* `enhanced_threat_detection.js`: `analyzeThreat`, `displayEnhancedResults`, the content
  generators, `uploadFileForAnalysis`, the `threatStats` tally;
* `network_functions.js` and `add_network_scan.js`: the two `scanNetwork` /
  `displayNetworkResults` pairs.

JavaScript strings are Lean `String`s (sequences of code points; lone surrogates are not
represented).  Built-ins of the host whose result depends on Unicode tables, on the number
formatter or on the clock are fields of `Host`, so every theorem below holds for every
behaviour of those built-ins; `asciiHost` is a concrete host used to evaluate the model.
-/

namespace OpenCyber

/-! ## Host built-ins -/

/-- Built-ins of the JavaScript host that the model does not look inside. -/
structure Host where
  /-- `String.prototype.toLowerCase`. -/
  toLowerCase : String → String
  /-- `String.prototype.toUpperCase`. -/
  toUpperCase : String → String
  /-- `Number::toString`, the text a number takes inside a template literal. -/
  numberToString : ℚ → String
  /-- `StringToNumber`; `none` is `NaN`. -/
  stringToNumber : String → Option ℚ
  /-- `Number.prototype.toFixed(2)`; `none` is `NaN`. -/
  toFixed2 : Option ℚ → String
  /-- The `message` of a `TypeError` the engine raises. -/
  typeErrorMessage : String
  /-- `new Date().toLocaleString()` as read during a render. -/
  localeTimestamp : String

/-- Two decimals of a non-negative rational, rounded half up. -/
def fixed2 (q : ℚ) : String :=
  let n := (q * 100 + 1 / 2).floor.toNat
  let frac := n % 100
  toString (n / 100) ++ "." ++ (if frac < 10 then "0" else "") ++ toString frac

/-- A concrete host: case mapping of the ASCII letters, integers printed in decimal,
decimal digit strings read as numbers, a fixed clock.  It agrees with the ECMAScript
built-ins on ASCII text and on non-negative integers, which is all the examples use. -/
def asciiHost : Host where
  toLowerCase s := String.mk (s.data.map Char.toLower)
  toUpperCase s := String.mk (s.data.map Char.toUpper)
  numberToString q := if q.den = 1 then toString q.num else toString q.num ++ "/" ++ toString q.den
  stringToNumber s := if s = "" then some 0 else s.toNat?.map fun n => (n : ℚ)
  toFixed2
    | none => "NaN"
    | some q => if q < 0 then "-" ++ fixed2 (-q) else fixed2 q
  typeErrorMessage := "Cannot read properties of undefined"
  localeTimestamp := "1/1/2025, 12:00:00 AM"

/-! ## `String.prototype.includes` -/

/-- Substring search on character lists: some tail of `hay` starts with `needle`. -/
def includesChars (hay needle : List Char) : Bool :=
  hay.tails.any fun t => needle.isPrefixOf t

/-- `s.includes(sub)` for strings. -/
def includes (s sub : String) : Bool :=
  includesChars s.data sub.data

/-! ## platform_enhancements_complete.js -/

/-- The literal array `ethiopianIndicators` of `checkEthiopianContext`. -/
def ethiopianIndicators : List String :=
  [".et", "ethiopia", "cbe", "dashen", "awash", "ethiotelecom",
   "ethiopianairlines", "gov.et", "com.et"]

/-- `determineOrganizationType(indicators)`; `Array.prototype.includes` on an array of
strings is list membership. -/
def determineOrganizationType (indicators : List String) : String :=
  if indicators.contains "cbe" || indicators.contains "dashen" || indicators.contains "awash" then
    "financial"
  else if indicators.contains "gov.et" || indicators.contains ".et" then
    "government"
  else if indicators.contains "ethiotelecom" then
    "telecom"
  else if indicators.contains "ethiopianairlines" then
    "infrastructure"
  else
    "unknown"

/-- The object returned by `checkEthiopianContext`. -/
structure EthiopianContext where
  isEthiopian : Bool
  matchedIndicators : List String
  organizationType : String
  deriving DecidableEq, Repr

/-- `checkEthiopianContext(target)`. -/
def checkEthiopianContext (host : Host) (target : String) : EthiopianContext :=
  let targetLower := host.toLowerCase target
  let matched := ethiopianIndicators.filter fun indicator => includes targetLower indicator
  { isEthiopian := decide (matched.length > 0)
    matchedIndicators := matched
    organizationType := determineOrganizationType matched }


/-! ## JavaScript values

The values `JSON.parse` produces, plus `undefined` for a property that is absent.  Numbers
are the rationals they denote (`-0` and the infinities of an overflowing literal are not
represented).  An object is its list of own properties; a property is read with
`List.lookup`. -/

/-- A value of the response object. -/
inductive JSVal where
  | undefined
  | null
  | bool (b : Bool)
  | num (q : ℚ)
  | str (s : String)
  | arr (items : List JSVal)
  | obj (fields : List (String × JSVal))

/-- The exceptions the model raises: every one the source can raise on these values is a
`TypeError`. -/
inductive JSError where
  | typeError
  deriving DecidableEq, Repr

namespace JSVal

/-- `ToBoolean`. -/
def truthy : JSVal → Bool
  | undefined => false
  | null => false
  | bool b => b
  | num q => decide (q ≠ 0)
  | str s => decide (s ≠ "")
  | arr _ => true
  | obj _ => true

/-- `v === 'literal'`. -/
def strictEqStr : JSVal → String → Bool
  | str s, t => decide (s = t)
  | _, _ => false

/-- `v !== 'literal'`. -/
def strictNeStr (v : JSVal) (t : String) : Bool :=
  !(v.strictEqStr t)

/-- The `length` of a string in UTF-16 code units. -/
def utf16Length (s : String) : Nat :=
  (s.data.map fun c => if c.val.toNat < 65536 then 1 else 2).sum

/-- Property read `v.key`, for the data property names the source reads (`length` and the
fields of the response; none of them is a member of a prototype).  Reading a property of
`undefined` or `null` raises a `TypeError`. -/
def get (v : JSVal) (key : String) : Except JSError JSVal :=
  match v with
  | undefined => .error .typeError
  | null => .error .typeError
  | obj fields => .ok ((fields.lookup key).getD undefined)
  | str s => .ok (if key = "length" then num (utf16Length s) else undefined)
  | arr items => .ok (if key = "length" then num items.length else undefined)
  | bool _ => .ok undefined
  | num _ => .ok undefined

/-- Optional chaining `v?.key`. -/
def getOpt (v : JSVal) (key : String) : JSVal :=
  match v.get key with
  | .ok w => w
  | .error _ => undefined

/-- `a || b` on values. -/
def orElse (a b : JSVal) : JSVal :=
  if a.truthy then a else b

mutual
/-- `ToString`, as a template literal applies it.  An object from `JSON.parse` prints as
`[object Object]` unless it has an own property `toString` (which is then not callable, and
the default `valueOf` returns no primitive): that raises a `TypeError`. -/
def toStr (host : Host) : JSVal → Except JSError String
  | undefined => .ok "undefined"
  | null => .ok "null"
  | bool b => .ok (if b then "true" else "false")
  | num q => .ok (host.numberToString q)
  | str s => .ok s
  | arr items => joinItems host items
  | obj fields =>
    if (fields.lookup "toString").isSome then .error .typeError else .ok "[object Object]"
/-- `Array.prototype.join` with the default separator: `undefined` and `null` elements
print as the empty string. -/
def joinItems (host : Host) : List JSVal → Except JSError String
  | [] => .ok ""
  | [x] => itemStr host x
  | x :: y :: rest => do
    let a ← itemStr host x
    let b ← joinItems host (y :: rest)
    pure (a ++ "," ++ b)
/-- One element of a joined array. -/
def itemStr (host : Host) : JSVal → Except JSError String
  | undefined => .ok ""
  | null => .ok ""
  | v => toStr host v
end

/-- `ToNumber`; `none` is `NaN`. -/
def toNumber (host : Host) : JSVal → Except JSError (Option ℚ)
  | undefined => .ok none
  | null => .ok (some 0)
  | bool b => .ok (some (if b then 1 else 0))
  | num q => .ok (some q)
  | str s => .ok (host.stringToNumber s)
  | v => do
    let s ← toStr host v
    pure (host.stringToNumber s)

/-- `v > 0`. -/
def gtZero (host : Host) (v : JSVal) : Except JSError Bool := do
  match ← toNumber host v with
  | some q => pure (decide (0 < q))
  | none => pure false

/-- `v.toUpperCase()`: defined on strings only; on anything else the property is absent
or not callable. -/
def callToUpperCase (host : Host) : JSVal → Except JSError String
  | str s => .ok (host.toUpperCase s)
  | _ => .error .typeError

/-- The callback `f` applied to the elements of an array, first to last; the first
exception ends the traversal. -/
def mapItems (f : JSVal → Except JSError String) : List JSVal → Except JSError (List String)
  | [] => .ok []
  | x :: rest => do
    let y ← f x
    let ys ← mapItems f rest
    pure (y :: ys)

/-- `v.map(f).join('')` for a callback that returns text; `map` exists on arrays only. -/
def mapJoin (v : JSVal) (f : JSVal → Except JSError String) : Except JSError String :=
  match v with
  | arr items => do
    let parts ← mapItems f items
    pure (String.join parts)
  | _ => .error .typeError

end JSVal

/-! ## enhanced_threat_detection.js: rendering

Each renderer returns the HTML it produces, or the `TypeError` it raises.  Template
literals are copied with their line breaks and indentation. -/

/-- The object `threatStats`. -/
structure ThreatStats where
  totalScans : Nat
  threatsDetected : Nat
  ethiopianOrgs : Nat
  confidenceRate : String
  deriving DecidableEq, Repr

/-- The initial value of `threatStats`. -/
def ThreatStats.initial : ThreatStats :=
  { totalScans := 0, threatsDetected := 0, ethiopianOrgs := 12, confidenceRate := "95%" }

/-- The table `analysisSteps` of `showEnhancedAnalysisProgress`; `none` for a key the
table does not have. -/
def analysisSteps (type : String) : Option (List String) :=
  if type = "url" then
    some ["Initializing URL Analysis", "Checking Ethiopian Organizational Context",
      "Phishing Pattern Detection", "Malware Distribution Analysis",
      "International Threat Feed Check", "Final Threat Assessment"]
  else if type = "ip" then
    some ["Initializing IP Analysis", "Geolocation Lookup", "ASN Information Retrieval",
      "Ethiopian Network Context", "International Reputation Check",
      "Threat Level Calculation"]
  else if type = "file" then
    some ["Initializing File Analysis", "File Type Verification", "Static Analysis",
      "Behavioral Pattern Detection", "AI Engine Processing", "Threat Assessment"]
  else
    none

/-- One row of the progress list: the callback of `analysisSteps[type].map`. -/
def progressStep (step : String) (index : Nat) : String :=
  ("
                    <div style=\"display: flex; align-items: center; padding: 0.5rem 0; border-bottom: 1px solid rgba(255,255,255,0.1)\">
                        <i class=\"fas fa-" ++
    (if index = 0 then "play" else "circle") ++
    " " ++
    (if index = 0 then "text-primary" else "text-muted") ++
    "\" 
                           style=\"margin-right: 1rem;\"></i>
                        <span>" ++
    (step) ++
    "</span>
                    </div>
                ")

/-- The template literal of `showEnhancedAnalysisProgress`. -/
def progressTemplate (typeUpper inputValue steps : String) : String :=
  ("
        <div style=\"text-align: center; padding: 2rem;\">
            <div style=\"font-size: 3rem; color: var(--link-color); margin-bottom: 1rem;\">
                <i class=\"fas fa-robot\"></i>
            </div>
            <h3>Enhanced Threat Analysis in Progress</h3>
            <p>Analyzing " ++
    (typeUpper) ++
    ": <strong>" ++
    (inputValue) ++
    "</strong></p>
            
            <div style=\"margin: 2rem 0;\">
                " ++
    (steps) ++
    "
            </div>
            
            <div style=\"height: 8px; background: rgba(255, 255, 255, 0.1); border-radius: 4px; margin: 1rem 0; overflow: hidden;\">
                <div style=\"height: 100%; border-radius: 4px; background: linear-gradient(90deg, var(--link-color), #c05621); width: 0%; transition: width 0.5s ease;\" id=\"progressBar\"></div>
            </div>
        </div>
    ")

/-- `showEnhancedAnalysisProgress(type, inputValue, container)`: the HTML written to the
container.  The timer that animates the width of `#progressBar` afterwards is not
modelled. -/
def showEnhancedAnalysisProgress (host : Host) (type inputValue : String) :
    Except JSError String :=
  match analysisSteps type with
  | none => .error .typeError
  | some steps =>
    .ok (progressTemplate (host.toUpperCase type) inputValue
      (String.join (steps.enum.map fun p => progressStep p.2 p.1)))

/-- The class of an indicator block, chosen by `indicator.severity`. -/
def severityClass (severity : JSVal) : String :=
  if severity.strictEqStr "high" then "result-malicious"
  else if severity.strictEqStr "medium" then "result-suspicious"
  else "result-clean"

/-- The icon of an indicator block. -/
def severityIcon (severity : JSVal) : String :=
  if severity.strictEqStr "high" then "exclamation-triangle" else "info-circle"

/-- The template literal of one indicator in `generateURLAnalysisContent`. -/
def urlIndicatorTemplate (cls icon typeUpper severityUpper description confidence : String) :
    String :=
  ("
            <div class=\"result-item " ++
    (cls) ++
    "\">
                <div class=\"result-icon\">
                    <i class=\"fas fa-" ++
    (icon) ++
    "\"></i>
                </div>
                <div>
                    <h4>" ++
    (typeUpper) ++
    " - " ++
    (severityUpper) ++
    " severity</h4>
                    <p>" ++
    (description) ++
    "</p>
                    <small>Confidence: " ++
    (confidence) ++
    "%</small>
                </div>
            </div>
        ")

/-- The callback of `data.threat_indicators.map` in `generateURLAnalysisContent`. -/
def urlIndicatorBlock (host : Host) (indicator : JSVal) : Except JSError String := do
  let severity ← indicator.get "severity"
  let typeUpper ← (← indicator.get "type").callToUpperCase host
  let severityUpper ← severity.callToUpperCase host
  let description ← (← indicator.get "description").toStr host
  let confidence ← (← indicator.get "confidence").toStr host
  pure (urlIndicatorTemplate (severityClass severity) (severityIcon severity) typeUpper
    severityUpper description confidence)

/-- The text of `threatsHTML`: the indicator blocks, or the empty string when
`data.threat_indicators` is falsy or its `length` is not above zero. -/
def threatsHTML (host : Host) (threat_indicators : JSVal)
    (block : JSVal → Except JSError String) : Except JSError String := do
  if threat_indicators.truthy then
    let len ← threat_indicators.get "length"
    if ← len.gtZero host then
      threat_indicators.mapJoin block
    else
      pure ""
  else
    pure ""

/-- The text of `data.threat_indicators?.length || 0` in the section heading. -/
def indicatorCount (host : Host) (threat_indicators : JSVal) : Except JSError String :=
  ((threat_indicators.getOpt "length").orElse (.num 0)).toStr host

/-- The text of `threatsHTML || '<p>No threat indicators detected</p>'`. -/
def orPlaceholder (html : String) : String :=
  if html ≠ "" then html else "<p>No threat indicators detected</p>"

/-- The template literal of `orgContextHTML`. -/
def orgContextTemplate (isEthiopian organization_type verified : String) : String :=
  ("
            <div class=\"metadata-item\">
                <div class=\"metadata-label\">Ethiopian Organization</div>
                <div class=\"metadata-value\">" ++
    (isEthiopian) ++
    "</div>
            </div>
            <div class=\"metadata-item\">
                <div class=\"metadata-label\">Organization Type</div>
                <div class=\"metadata-value\">" ++
    (organization_type) ++
    "</div>
            </div>
            " ++
    (verified) ++
    "
        ")

/-- The text of the `Verified` item, shown for a truthy `org.verified`. -/
def verifiedTemplate : String :=
  ("
            <div class=\"metadata-item\">
                <div class=\"metadata-label\">Verified</div>
                <div class=\"metadata-value\">✅ Yes</div>
            </div>
            ")

/-- The template literal `generateURLAnalysisContent` returns. -/
def urlContentTemplate (orgContextHTML count threats openphish urlhaus : String) : String :=
  ("
        <div class=\"report-section\">
            <div class=\"section-header\">
                <i class=\"fas fa-building\"></i>
                <h3>Organizational Context</h3>
            </div>
            <div class=\"metadata-grid\">
                " ++
    (orgContextHTML) ++
    "
            </div>
        </div>
        
        <div class=\"report-section\">
            <div class=\"section-header\">
                <i class=\"fas fa-exclamation-triangle\"></i>
                <h3>Threat Indicators (" ++
    (count) ++
    ")</h3>
            </div>
            " ++
    (threats) ++
    "
        </div>
        
        <div class=\"report-section\">
            <div class=\"section-header\">
                <i class=\"fas fa-globe\"></i>
                <h3>International Intelligence</h3>
            </div>
            <div class=\"metadata-grid\">
                <div class=\"metadata-item\">
                    <div class=\"metadata-label\">OpenPhish</div>
                    <div class=\"metadata-value\">" ++
    (openphish) ++
    "</div>
                </div>
                <div class=\"metadata-item\">
                    <div class=\"metadata-label\">URLhaus</div>
                    <div class=\"metadata-value\">" ++
    (urlhaus) ++
    "</div>
                </div>
            </div>
        </div>
    ")

/-- `generateURLAnalysisContent(data)`. -/
def generateURLAnalysisContent (host : Host) (data : JSVal) : Except JSError String := do
  let org ← data.get "organization_context"
  let orgContextHTML ←
    if org.truthy then do
      let is_ethiopian ← org.get "is_ethiopian"
      let organization_type ← (← org.get "organization_type").toStr host
      let verified ← org.get "verified"
      pure (orgContextTemplate (if is_ethiopian.truthy then "Yes" else "No") organization_type
        (if verified.truthy then verifiedTemplate else ""))
    else
      pure ""
  let threat_indicators ← data.get "threat_indicators"
  let threats ← threatsHTML host threat_indicators (urlIndicatorBlock host)
  let count ← indicatorCount host threat_indicators
  let intel ← data.get "international_intel"
  let openphish ← ((intel.getOpt "openphish").orElse (.str "Not detected")).toStr host
  let urlhaus ← ((intel.getOpt "urlhaus").orElse (.str "Not detected")).toStr host
  pure (urlContentTemplate orgContextHTML count (orPlaceholder threats) openphish urlhaus)

/-- The template literal of the section shown for a truthy `data.ethiopian_context`. -/
def ethiopianNetworkTemplate (provider : String) : String :=
  ("
        <div class=\"report-section\">
            <div class=\"section-header\">
                <i class=\"fas fa-flag-et\"></i>
                <h3>Ethiopian Network Context</h3>
            </div>
            <div class=\"metadata-grid\">
                <div class=\"metadata-item\">
                    <div class=\"metadata-label\">Ethiopian IP</div>
                    <div class=\"metadata-value\">✅ Yes</div>
                </div>
                <div class=\"metadata-item\">
                    <div class=\"metadata-label\">Provider</div>
                    <div class=\"metadata-value\">" ++
    (provider) ++
    "</div>
                </div>
            </div>
        </div>
        ")

/-- The template literal `generateIPAnalysisContent` returns. -/
def ipContentTemplate (country city isp asn organization ethiopianHTML : String) : String :=
  ("
        <div class=\"report-section\">
            <div class=\"section-header\">
                <i class=\"fas fa-map-marker-alt\"></i>
                <h3>Geolocation Information</h3>
            </div>
            <div class=\"metadata-grid\">
                <div class=\"metadata-item\">
                    <div class=\"metadata-label\">Country</div>
                    <div class=\"metadata-value\">" ++
    (country) ++
    "</div>
                </div>
                <div class=\"metadata-item\">
                    <div class=\"metadata-label\">City</div>
                    <div class=\"metadata-value\">" ++
    (city) ++
    "</div>
                </div>
                <div class=\"metadata-item\">
                    <div class=\"metadata-label\">ISP</div>
                    <div class=\"metadata-value\">" ++
    (isp) ++
    "</div>
                </div>
            </div>
        </div>
        
        <div class=\"report-section\">
            <div class=\"section-header\">
                <i class=\"fas fa-network-wired\"></i>
                <h3>Network Information</h3>
            </div>
            <div class=\"metadata-grid\">
                <div class=\"metadata-item\">
                    <div class=\"metadata-label\">ASN</div>
                    <div class=\"metadata-value\">" ++
    (asn) ++
    "</div>
                </div>
                <div class=\"metadata-item\">
                    <div class=\"metadata-label\">Organization</div>
                    <div class=\"metadata-value\">" ++
    (organization) ++
    "</div>
                </div>
            </div>
        </div>
        
        " ++
    (ethiopianHTML) ++
    "
    ")

/-- `generateIPAnalysisContent(data)`. -/
def generateIPAnalysisContent (host : Host) (data : JSVal) : Except JSError String := do
  let geo ← data.get "geo_location"
  let country ← ((geo.getOpt "country").orElse (.str "Unknown")).toStr host
  let city ← ((geo.getOpt "city").orElse (.str "Unknown")).toStr host
  let isp ← ((geo.getOpt "isp").orElse (.str "Unknown")).toStr host
  let asn_info ← data.get "asn_info"
  let asn ← ((asn_info.getOpt "asn").orElse (.str "Unknown")).toStr host
  let organization ← ((asn_info.getOpt "organization").orElse (.str "Unknown")).toStr host
  let ethiopian_context ← data.get "ethiopian_context"
  let ethiopianHTML ←
    if ethiopian_context.truthy then do
      let provider ← (← ethiopian_context.get "provider").toStr host
      pure (ethiopianNetworkTemplate provider)
    else
      pure ""
  pure (ipContentTemplate country city isp asn organization ethiopianHTML)

/-- The template literal of one indicator in `generateFileAnalysisContent`. -/
def fileIndicatorTemplate (cls icon typeUpper description confidence : String) : String :=
  ("
            <div class=\"result-item " ++
    (cls) ++
    "\">
                <div class=\"result-icon\">
                    <i class=\"fas fa-" ++
    (icon) ++
    "\"></i>
                </div>
                <div>
                    <h4>" ++
    (typeUpper) ++
    "</h4>
                    <p>" ++
    (description) ++
    "</p>
                    <small>Confidence: " ++
    (confidence) ++
    "%</small>
                </div>
            </div>
        ")

/-- The template literal of one analysis engine. -/
def engineTemplate (engine : String) : String :=
  ("
                    <div style=\"background: rgba(255, 111, 0, 0.1); padding: 0.5rem 1rem; border-radius: 20px; border: 1px solid rgba(255, 111, 0, 0.3);\">
                        <i class=\"fab fa-python\"></i> " ++
    (engine) ++
    "
                    </div>
                ")

/-- The template literal `generateFileAnalysisContent` returns. -/
def fileContentTemplate (filename sizeKB file_type file_hash engines count threats : String) :
    String :=
  ("
        <div class=\"report-section\">
            <div class=\"section-header\">
                <i class=\"fas fa-file\"></i>
                <h3>File Information</h3>
            </div>
            <div class=\"metadata-grid\">
                <div class=\"metadata-item\">
                    <div class=\"metadata-label\">Filename</div>
                    <div class=\"metadata-value\">" ++
    (filename) ++
    "</div>
                </div>
                <div class=\"metadata-item\">
                    <div class=\"metadata-label\">File Size</div>
                    <div class=\"metadata-value\">" ++
    (sizeKB) ++
    " KB</div>
                </div>
                <div class=\"metadata-item\">
                    <div class=\"metadata-label\">File Type</div>
                    <div class=\"metadata-value\">" ++
    (file_type) ++
    "</div>
                </div>
                <div class=\"metadata-item\">
                    <div class=\"metadata-label\">SHA256 Hash</div>
                    <div class=\"metadata-value\" style=\"font-size: 0.7rem;\">" ++
    (file_hash) ++
    "</div>
                </div>
            </div>
        </div>
        
        <div class=\"report-section\">
            <div class=\"section-header\">
                <i class=\"fas fa-robot\"></i>
                <h3>Analysis Engines</h3>
            </div>
            <div style=\"display: flex; gap: 1rem; flex-wrap: wrap;\">
                " ++
    (engines) ++
    "
            </div>
        </div>
        
        <div class=\"report-section\">
            <div class=\"section-header\">
                <i class=\"fas fa-exclamation-triangle\"></i>
                <h3>Threat Indicators (" ++
    (count) ++
    ")</h3>
            </div>
            " ++
    (threats) ++
    "
        </div>
    ")

/-- The callback of `data.threat_indicators.map` in `generateFileAnalysisContent`. -/
def fileIndicatorBlock (host : Host) (indicator : JSVal) : Except JSError String := do
  let severity ← indicator.get "severity"
  let typeUpper ← (← indicator.get "type").callToUpperCase host
  let description ← (← indicator.get "description").toStr host
  let confidence ← (← indicator.get "confidence").toStr host
  pure (fileIndicatorTemplate (severityClass severity) (severityIcon severity) typeUpper
    description confidence)

/-- The callback of `data.analysis_engines.map`. -/
def engineBadge (host : Host) (engine : JSVal) : Except JSError String := do
  let name ← engine.toStr host
  pure (engineTemplate name)

/-- `generateFileAnalysisContent(data)`. -/
def generateFileAnalysisContent (host : Host) (data : JSVal) : Except JSError String := do
  let threat_indicators ← data.get "threat_indicators"
  let threats ← threatsHTML host threat_indicators (fileIndicatorBlock host)
  let filename ← (← data.get "filename").toStr host
  let size ← (← data.get "file_size").toNumber host
  let sizeKB := host.toFixed2 (size.map fun q => q / 1024)
  let file_type ← (← data.get "file_type").toStr host
  let file_hash ← (← data.get "file_hash").toStr host
  let engines ← (← data.get "analysis_engines").mapJoin (engineBadge host)
  let count ← indicatorCount host threat_indicators
  pure (fileContentTemplate filename sizeKB file_type file_hash engines count
    (orPlaceholder threats))

/-- The array `recommendations` that `generateRecommendations` builds. -/
def recommendations (data : JSVal) (type : String) : Except JSError (List String) := do
  let risk_level ← data.get "risk_level"
  let base :=
    if risk_level.strictEqStr "high" then
      ["Immediate action required - this poses significant security risk",
       "Do not interact with this resource",
       "Report to your security team immediately"]
    else if risk_level.strictEqStr "medium" then
      ["Exercise caution when interacting with this resource",
       "Verify authenticity through alternative channels",
       "Monitor for any suspicious activity"]
    else
      ["This resource appears safe for normal use",
       "Continue practicing good security hygiene",
       "Report any suspicious activity to your security team"]
  let org ← data.get "organization_context"
  let withUrl :=
    if type = "url" && (org.getOpt "is_ethiopian").truthy then
      base ++ ["Verify through official Ethiopian organization channels"]
    else base
  let ethiopian_context ← data.get "ethiopian_context"
  let withIp :=
    if type = "ip" && ethiopian_context.truthy then
      withUrl ++
        ["This IP belongs to Ethiopian infrastructure - monitor for unauthorized access"]
    else withUrl
  pure withIp

/-- The template literal of one recommendation. -/
def recommendationItem (rec : String) : String :=
  ("<li>" ++
    (rec) ++
    "</li>")

/-- `generateRecommendations(data, type)`. -/
def generateRecommendations (data : JSVal) (type : String) : Except JSError String := do
  let recs ← recommendations data type
  pure (String.join (recs.map recommendationItem))

/-- The panel `displayEnhancedResults` writes for a response with a truthy `error`. -/
def analysisErrorPanel (error : String) : String :=
  ("
            <div class=\"result-item result-malicious\">
                <div class=\"result-icon\"><i class=\"fas fa-exclamation-triangle\"></i></div>
                <div>
                    <h4>Analysis Error</h4>
                    <p>" ++
    (error) ++
    "</p>
                </div>
            </div>
        ")

/-- The class of the verdict box, chosen by `data.risk_level`. -/
def threatClass (risk_level : JSVal) : String :=
  if risk_level.strictEqStr "high" then "result-malicious"
  else if risk_level.strictEqStr "medium" then "result-suspicious"
  else "result-clean"

/-- The icon of the verdict box. -/
def verdictIcon (risk_level : JSVal) : String :=
  if risk_level.strictEqStr "high" then "skull-crossbones"
  else if risk_level.strictEqStr "medium" then "exclamation-triangle"
  else "check-circle"

/-- The template literal of the report `displayEnhancedResults` writes. -/
def reportTemplate (typeUpper timestamp cls icon riskUpper confidence specificContent
    recommendationsHTML : String) : String :=
  ("
        <div class=\"analysis-report\">
            <div class=\"report-header\">
                <div class=\"report-title\">Enhanced " ++
    (typeUpper) ++
    " Threat Analysis</div>
                <div class=\"report-timestamp\">" ++
    (timestamp) ++
    "</div>
            </div>
            
            <div class=\"report-section\">
                <div class=\"section-header\">
                    <i class=\"fas fa-shield-alt\"></i>
                    <h3>Executive Summary</h3>
                </div>
                <div class=\"verdict-box " ++
    (cls) ++
    "\">
                    <div class=\"verdict-icon\">
                        <i class=\"fas fa-" ++
    (icon) ++
    "\"></i>
                    </div>
                    <div class=\"verdict-content\">
                        <h3>" ++
    (riskUpper) ++
    " RISK LEVEL</h3>
                        <p>Confidence: " ++
    (confidence) ++
    "%</p>
                        <p>Analysis Type: " ++
    (typeUpper) ++
    "</p>
                    </div>
                </div>
            </div>
            
            " ++
    (specificContent) ++
    "
            
            <div class=\"report-section\">
                <div class=\"section-header\">
                    <i class=\"fas fa-tools\"></i>
                    <h3>Security Recommendations</h3>
                </div>
                <div class=\"recommendation-box\">
                    " ++
    (recommendationsHTML) ++
    "
                </div>
            </div>
        </div>
    ")

/-- `displayEnhancedResults(type, data, container)`: the HTML assigned to
`container.innerHTML`, or the `TypeError` raised before any assignment. -/
def displayEnhancedResults (host : Host) (type : String) (data : JSVal) :
    Except JSError String := do
  let error ← data.get "error"
  if error.truthy then
    let text ← error.toStr host
    pure (analysisErrorPanel text)
  else
    let risk_level ← data.get "risk_level"
    let specificContent ←
      if type = "url" then generateURLAnalysisContent host data
      else if type = "ip" then generateIPAnalysisContent host data
      else if type = "file" then generateFileAnalysisContent host data
      else pure ""
    let riskUpper ← risk_level.callToUpperCase host
    let confidence ← (← data.get "confidence").toStr host
    let recs ← generateRecommendations data type
    pure (reportTemplate (host.toUpperCase type) host.localeTimestamp (threatClass risk_level)
      (verdictIcon risk_level) riskUpper confidence specificContent recs)

/-- `displayAnalysisError(error, container)`, given `error.message`. -/
def displayAnalysisError (message : String) : String :=
  ("
        <div class=\"result-item result-malicious\">
            <div class=\"result-icon\"><i class=\"fas fa-exclamation-triangle\"></i></div>
            <div>
                <h4>Analysis Failed</h4>
                <p>Error: " ++
    (if message ≠ "" then message else "Unknown error occurred") ++
    "</p>
            </div>
        </div>
    ")

/-! ## The page

The part of the browser state the scripts read and write: the two text inputs, the
selected file, the result containers, the four counters on screen, the object
`threatStats`, and the trace of what the scripts did to the outside (alerts shown,
requests issued).  Every element the scripts look up by id is taken to exist. -/

/-- A `File` object: its name and its bytes. -/
structure JSFile where
  name : String
  bytes : List Nat
  deriving DecidableEq, Repr

/-- The body of a request: the value handed to `JSON.stringify`, or the entries of a
`FormData`. -/
inductive RequestBody where
  | json (payload : JSVal)
  | formData (entries : List (String × JSFile))

/-- One call of `fetch`. -/
structure Request where
  url : String
  method : String
  headers : List (String × String)
  body : RequestBody

/-- The result containers the scripts write. -/
inductive Container where
  | urlResults
  | ipResults
  | fileResults
  | networkResults
  deriving DecidableEq, Repr

/-- The state of the page. -/
structure Page where
  /-- `document.getElementById('urlInput').value`. -/
  urlInput : String
  /-- `document.getElementById('ipInput').value`. -/
  ipInput : String
  /-- `window.currentFile`; `none` when it is not set. -/
  currentFile : Option JSFile
  /-- The `innerHTML` of each result container. -/
  html : Container → String
  /-- The `textContent` of `#totalScans`, `#threatsDetected`, `#ethiopianOrgs` and
  `#confidenceRate`. -/
  totalScansText : String
  threatsDetectedText : String
  ethiopianOrgsText : String
  confidenceRateText : String
  /-- The global `threatStats`. -/
  threatStats : ThreatStats
  /-- The messages shown by `alert`, oldest first. -/
  alerts : List String
  /-- The calls of `fetch`, oldest first. -/
  requests : List Request

namespace Page

/-- `alert(message)`. -/
def alert (p : Page) (message : String) : Page :=
  { p with alerts := p.alerts ++ [message] }

/-- `container.innerHTML = text`. -/
def setHTML (p : Page) (c : Container) (text : String) : Page :=
  { p with html := fun d => if d = c then text else p.html d }

/-- `fetch(url, options)`. -/
def fetch (p : Page) (r : Request) : Page :=
  { p with requests := p.requests ++ [r] }

end Page

/-! ## ECMAScript `trim` -/

/-- The code points `String.prototype.trim` strips: WhiteSpace (TAB, VT, FF, ZWNBSP and
the space separators) and LineTerminator (LF, CR, LS, PS). -/
def isJSWhiteSpace (c : Char) : Bool :=
  let n := c.val.toNat
  n = 9 || n = 10 || n = 11 || n = 12 || n = 13 || n = 32 || n = 160 || n = 5760 ||
  (8192 ≤ n && n ≤ 8202) || n = 8232 || n = 8233 || n = 8239 || n = 8287 ||
  n = 12288 || n = 65279

/-- `String.prototype.trim`. -/
def trim (s : String) : String :=
  String.mk ((s.data.dropWhile isJSWhiteSpace).reverse.dropWhile isJSWhiteSpace).reverse

/-! ## enhanced_threat_detection.js: the tally and the request flow -/

/-- `updateThreatStats()`. -/
def updateThreatStats (host : Host) (p : Page) : Page :=
  { p with
    totalScansText := host.numberToString p.threatStats.totalScans
    threatsDetectedText := host.numberToString p.threatStats.threatsDetected
    ethiopianOrgsText := host.numberToString p.threatStats.ethiopianOrgs
    confidenceRateText := p.threatStats.confidenceRate }

/-- The `.catch` callbacks of `analyzeThreat` and `uploadFileForAnalysis`:
`displayAnalysisError(error, container)` for an error with the given `message`. -/
def analysisCatch (container : Container) (message : String) (p : Page) : Page :=
  p.setHTML container (displayAnalysisError message)

/-- The second `.then` callback of `analyzeThreat`, run with the parsed response `data`.
A `TypeError` raised inside it rejects the promise and reaches the `.catch` callback. -/
def analyzeThreatThen (host : Host) (type : String) (resultsContainer : Container)
    (data : JSVal) (p : Page) : Page :=
  match displayEnhancedResults host type data with
  | .error _ => analysisCatch resultsContainer host.typeErrorMessage p
  | .ok text =>
    let p := p.setHTML resultsContainer text
    match data.get "risk_level" with
    | .error _ => analysisCatch resultsContainer host.typeErrorMessage p
    | .ok risk_level =>
      if risk_level.strictNeStr "low" then
        updateThreatStats host
          { p with threatStats :=
              { p.threatStats with threatsDetected := p.threatStats.threatsDetected + 1 } }
      else
        p

/-- The second `.then` callback of `uploadFileForAnalysis`. -/
def uploadFileForAnalysisThen (host : Host) (container : Container)
    (data : JSVal) (p : Page) : Page :=
  match displayEnhancedResults host "file" data with
  | .error _ => analysisCatch container host.typeErrorMessage p
  | .ok text =>
    let p := p.setHTML container text
    match data.get "risk_level" with
    | .error _ => analysisCatch container host.typeErrorMessage p
    | .ok risk_level =>
      if risk_level.strictNeStr "low" then
        updateThreatStats host
          { p with threatStats :=
              { p.threatStats with threatsDetected := p.threatStats.threatsDetected + 1 } }
      else
        p

/-- `uploadFileForAnalysis(formData, container)` up to the call of `fetch`; the
container is used by the callbacks only. -/
def uploadFileForAnalysis (formData : List (String × JSFile)) (p : Page) : Page :=
  p.fetch
    { url := "/api/v1/analysis/file", method := "POST", headers := [],
      body := .formData formData }

/-- `analyzeThreat(type)` up to the call of `fetch`; the callbacks that run when the
response arrives are `analyzeThreatThen`, `uploadFileForAnalysisThen` and
`analysisCatch`. -/
def analyzeThreat (host : Host) (type : String) (p : Page) : Page :=
  if type = "file" ∧ p.currentFile = none then
    p.alert "Please select a file first"
  else
    let inputValue : Option String :=
      if type = "url" then some (trim p.urlInput)
      else if type = "ip" then some (trim p.ipInput)
      else if type = "file" then p.currentFile.map fun f => f.name
      else none
    let resultsContainer : Container :=
      if type = "url" then .urlResults
      else if type = "ip" then .ipResults
      else .fileResults
    match inputValue with
    | none => p.alert ("Please enter a " ++ type ++ " to analyze")
    | some inputValue =>
      if inputValue = "" then
        p.alert ("Please enter a " ++ type ++ " to analyze")
      else
        let p := updateThreatStats host
          { p with threatStats :=
              { p.threatStats with totalScans := p.threatStats.totalScans + 1 } }
        match showEnhancedAnalysisProgress host type inputValue with
        | .error _ => p
        | .ok text =>
          let p := p.setHTML resultsContainer text
          if type = "url" then
            p.fetch
              { url := "/api/v1/analysis/url", method := "POST",
                headers := [("Content-Type", "application/json")],
                body := .json (.obj [("url", .str inputValue)]) }
          else if type = "ip" then
            p.fetch
              { url := "/api/v1/analysis/ip", method := "POST",
                headers := [("Content-Type", "application/json")],
                body := .json (.obj [("ip", .str inputValue)]) }
          else
            match p.currentFile with
            | some file => uploadFileForAnalysis [("file", file)] p
            | none => p

/-! ## network_functions.js -/

namespace NetworkFunctions

/-- The template literal of `showScanProgress`. -/
def scanProgressTemplate (ip : String) : String :=
  ("
        <div class=\"result-item result-clean\">
            <div class=\"result-icon\"><i class=\"fas fa-search\"></i></div>
            <div>
                <h4>Network Scan in Progress</h4>
                <p>Scanning IP: <strong>" ++
    (ip) ++
    "</strong></p>
                <div class=\"scan-progress\">
                    <div class=\"progress-bar\">
                        <div class=\"progress-fill\"></div>
                    </div>
                </div>
            </div>
        </div>
    ")

/-- `showScanProgress(ip)`: the HTML written to `#networkResults`. -/
def showScanProgress (host : Host) (ip : JSVal) : Except JSError String := do
  let text ← ip.toStr host
  pure (scanProgressTemplate text)

/-- The panel for a response with a truthy `error`. -/
def scanErrorPanel (error : String) : String :=
  ("
            <div class=\"result-item result-malicious\">
                <div class=\"result-icon\"><i class=\"fas fa-exclamation-triangle\"></i></div>
                <div>
                    <h4>Scan Error</h4>
                    <p>" ++
    (error) ++
    "</p>
                </div>
            </div>
        ")

/-- The template literal of one open port. -/
def portTemplate (port service : String) : String :=
  ("
            <div class=\"port-item\">
                <span class=\"port-number\">" ++
    (port) ++
    "</span>
                <span class=\"port-service\">" ++
    (service) ++
    "</span>
                <span class=\"port-status status-open\">OPEN</span>
            </div>
        ")

/-- The template literal of one warning. -/
def warningTemplate (warning : String) : String :=
  ("
            <div class=\"warning-item\">
                <i class=\"fas fa-exclamation-circle\"></i> " ++
    (warning) ++
    "
            </div>
        ")

/-- The template literal of the warning section, shown for a non-empty `warningsHTML`. -/
def warningSectionTemplate (warningsHTML : String) : String :=
  ("
                <div class=\"warning-section\">
                    <h4>Security Warnings:</h4>
                    " ++
    (warningsHTML) ++
    "
                </div>
                ")

/-- The template literal of the report `displayNetworkResults` writes. -/
def reportTemplate (timestamp ip reachable hostname networkType cls icon levelUpper score
    portCount warningSection count portsHTML : String) : String :=
  ("
        <div class=\"analysis-report\">
            <div class=\"report-header\">
                <div class=\"report-title\">Network Intelligence Report</div>
                <div class=\"report-timestamp\">" ++
    (timestamp) ++
    "</div>
            </div>
            
            <div class=\"report-section\">
                <div class=\"section-header\">
                    <i class=\"fas fa-network-wired\"></i>
                    <h3>Target Information</h3>
                </div>
                <div class=\"metadata-grid\">
                    <div class=\"metadata-item\">
                        <div class=\"metadata-label\">IP Address</div>
                        <div class=\"metadata-value\">" ++
    (ip) ++
    "</div>
                    </div>
                    <div class=\"metadata-item\">
                        <div class=\"metadata-label\">Reachability</div>
                        <div class=\"metadata-value\">" ++
    (reachable) ++
    "</div>
                    </div>
                    <div class=\"metadata-item\">
                        <div class=\"metadata-label\">Hostname</div>
                        <div class=\"metadata-value\">" ++
    (hostname) ++
    "</div>
                    </div>
                    <div class=\"metadata-item\">
                        <div class=\"metadata-label\">Network Type</div>
                        <div class=\"metadata-value\">" ++
    (networkType) ++
    "</div>
                    </div>
                </div>
            </div>
            
            <div class=\"report-section\">
                <div class=\"section-header\">
                    <i class=\"fas fa-shield-alt\"></i>
                    <h3>Threat Assessment</h3>
                </div>
                <div class=\"verdict-box " ++
    (cls) ++
    "\">
                    <div class=\"verdict-icon\">
                        <i class=\"fas fa-" ++
    (icon) ++
    "\"></i>
                    </div>
                    <div class=\"verdict-content\">
                        <h3>" ++
    (levelUpper) ++
    " THREAT LEVEL</h3>
                        <p>Threat Score: " ++
    (score) ++
    "/100</p>
                        <p>Open Ports: " ++
    (portCount) ++
    "</p>
                    </div>
                </div>
                " ++
    (warningSection) ++
    "
            </div>
            
            <div class=\"report-section\">
                <div class=\"section-header\">
                    <i class=\"fas fa-door-open\"></i>
                    <h3>Open Ports (" ++
    (count) ++
    ")</h3>
                </div>
                <div class=\"ports-grid\">
                    " ++
    (portsHTML) ++
    "
                </div>
            </div>
        </div>
    ")

/-- The callback of `data.open_ports.map`. -/
def portItem (host : Host) (port : JSVal) : Except JSError String := do
  let number ← (← port.get "port").toStr host
  let service ← (← port.get "service").toStr host
  pure (portTemplate number service)

/-- The callback of `data.threat_assessment.warnings.map`. -/
def warningItem (host : Host) (warning : JSVal) : Except JSError String := do
  let text ← warning.toStr host
  pure (warningTemplate text)

/-- `displayNetworkResults(data)`: the HTML assigned to `#networkResults`. -/
def displayNetworkResults (host : Host) (data : JSVal) : Except JSError String := do
  let error ← data.get "error"
  if error.truthy then
    let text ← error.toStr host
    pure (scanErrorPanel text)
  else
    let threat_assessment ← data.get "threat_assessment"
    let threatLevel := (threat_assessment.getOpt "level").orElse (.str "Unknown")
    let threatClass :=
      if threatLevel.strictEqStr "High" then "result-malicious"
      else if threatLevel.strictEqStr "Medium" then "result-suspicious"
      else "result-clean"
    let open_ports ← data.get "open_ports"
    let portsHTML ←
      if open_ports.truthy then do
        if ← (← open_ports.get "length").gtZero host then
          open_ports.mapJoin (portItem host)
        else
          pure "<p>No open ports detected</p>"
      else
        pure "<p>No open ports detected</p>"
    let warnings := threat_assessment.getOpt "warnings"
    let warningsHTML ←
      if warnings.truthy then do
        if ← (← warnings.get "length").gtZero host then
          warnings.mapJoin (warningItem host)
        else
          pure ""
      else
        pure ""
    let ip ← (← data.get "ip").toStr host
    let reachable ← data.get "reachable"
    let hostname ← ((← data.get "hostname").orElse (.str "Unknown")).toStr host
    let network_info ← data.get "network_info"
    let networkType ← ((network_info.getOpt "type").orElse (.str "Unknown")).toStr host
    let icon :=
      if threatLevel.strictEqStr "High" then "skull-crossbones"
      else if threatLevel.strictEqStr "Medium" then "exclamation-triangle"
      else "check-circle"
    let levelUpper ← threatLevel.callToUpperCase host
    let score ← ((threat_assessment.getOpt "threat_score").orElse (.num 0)).toStr host
    let portCount ← ((threat_assessment.getOpt "open_port_count").orElse (.num 0)).toStr host
    let count ← ((open_ports.getOpt "length").orElse (.num 0)).toStr host
    pure (reportTemplate host.localeTimestamp ip
      (if reachable.truthy then "✅ Reachable" else "❌ Not Reachable") hostname networkType
      threatClass icon levelUpper score portCount
      (if warningsHTML ≠ "" then warningSectionTemplate warningsHTML else "") count portsHTML)

/-- `displayScanError(error)`, given `error.message`. -/
def displayScanError (message : String) : String :=
  ("
        <div class=\"result-item result-malicious\">
            <div class=\"result-icon\"><i class=\"fas fa-exclamation-triangle\"></i></div>
            <div>
                <h4>Network Scan Failed</h4>
                <p>Error: " ++
    (if message ≠ "" then message else "Unknown error occurred") ++
    "</p>
            </div>
        </div>
    ")

/-- `scanNetwork(ipAddress)` up to the call of `fetch`.  A `TypeError` raised while the
progress panel is built ends the call. -/
def scanNetwork (host : Host) (ipAddress : JSVal) (p : Page) : Page :=
  if !ipAddress.truthy then
    p.alert "Please enter an IP address"
  else
    match showScanProgress host ipAddress with
    | .error _ => p
    | .ok text =>
      (p.setHTML .networkResults text).fetch
        { url := "/api/v1/network/scan", method := "POST",
          headers := [("Content-Type", "application/json")],
          body := .json (.obj [("ip", ipAddress)]) }

/-- The second `.then` callback of `scanNetwork`; a `TypeError` inside it reaches the
`.catch` callback, which calls `displayScanError`. -/
def scanNetworkThen (host : Host) (data : JSVal) (p : Page) : Page :=
  match displayNetworkResults host data with
  | .error _ => p.setHTML .networkResults (displayScanError host.typeErrorMessage)
  | .ok text => p.setHTML .networkResults text

end NetworkFunctions

/-! ## add_network_scan.js -/

namespace AddNetworkScan

/-- The text `scanNetwork` writes before the request. -/
def scanningTemplate (ipAddress : String) : String :=
  ("<div class=\"result-item result-clean\"><div class=\"result-icon\"><i class=\"fas fa-search\"></i></div><div><h4>Scanning Network...</h4><p>Scanning IP: " ++
    (ipAddress) ++
    "</p></div></div>")

/-- The panel `scanNetwork` writes before the request; `+` applies `ToString` to the
argument. -/
def scanningPanel (host : Host) (ipAddress : JSVal) : Except JSError String := do
  let text ← ipAddress.toStr host
  pure (scanningTemplate text)

/-- The panel of the `.catch` callback, given `error.message`. -/
def scanFailedPanel (message : String) : String :=
  ("<div class=\"result-item result-malicious\"><div class=\"result-icon\"><i class=\"fas fa-exclamation-triangle\"></i></div><div><h4>Scan Failed</h4><p>Error: " ++
    (message) ++
    "</p></div></div>")

/-- The panel for a response with a truthy `error`. -/
def scanErrorPanel (error : String) : String :=
  ("<div class=\"result-item result-malicious\"><div class=\"result-icon\"><i class=\"fas fa-exclamation-triangle\"></i></div><div><h4>Scan Error</h4><p>" ++
    (error) ++
    "</p></div></div>")

/-- The text of one open port. -/
def portTemplate (port service : String) : String :=
  ("<div style=\"display: flex; justify-content: space-between; padding: 0.5rem; border-bottom: 1px solid rgba(255,255,255,0.1)\"><span>Port " ++
    (port) ++
    "</span><span>" ++
    (service) ++
    "</span><span style=\"color: #68d391\">OPEN</span></div>")

/-- The template literal of the report `displayNetworkResults` writes. -/
def reportTemplate (timestamp ip reachable networkType cls icon levelText score count
    portsHTML : String) : String :=
  ("
        <div class=\"analysis-report\">
            <div class=\"report-header\">
                <div class=\"report-title\">Network Scan Report</div>
                <div class=\"report-timestamp\">" ++
    (timestamp) ++
    "</div>
            </div>
            
            <div class=\"report-section\">
                <div class=\"section-header\">
                    <i class=\"fas fa-network-wired\"></i>
                    <h3>Target Information</h3>
                </div>
                <div style=\"display: grid; grid-template-columns: repeat(auto-fit, minmax(200px, 1fr)); gap: 1rem;\">
                    <div style=\"background: rgba(15, 23, 42, 0.5); padding: 1rem; border-radius: 6px;\">
                        <div style=\"font-size: 0.8rem; color: #a0aec0;\">IP Address</div>
                        <div style=\"font-weight: 600;\">" ++
    (ip) ++
    "</div>
                    </div>
                    <div style=\"background: rgba(15, 23, 42, 0.5); padding: 1rem; border-radius: 6px;\">
                        <div style=\"font-size: 0.8rem; color: #a0aec0;\">Reachability</div>
                        <div style=\"font-weight: 600;\">" ++
    (reachable) ++
    "</div>
                    </div>
                    <div style=\"background: rgba(15, 23, 42, 0.5); padding: 1rem; border-radius: 6px;\">
                        <div style=\"font-size: 0.8rem; color: #a0aec0;\">Network Type</div>
                        <div style=\"font-weight: 600;\">" ++
    (networkType) ++
    "</div>
                    </div>
                </div>
            </div>
            
            <div class=\"report-section\">
                <div class=\"section-header\">
                    <i class=\"fas fa-shield-alt\"></i>
                    <h3>Threat Assessment</h3>
                </div>
                <div class=\"verdict-box " ++
    (cls) ++
    "\">
                    <div class=\"verdict-icon\">
                        <i class=\"fas fa-" ++
    (icon) ++
    "\"></i>
                    </div>
                    <div class=\"verdict-content\">
                        <h3>" ++
    (levelText) ++
    " THREAT LEVEL</h3>
                        <p>Threat Score: " ++
    (score) ++
    "/100</p>
                        <p>Open Ports: " ++
    (count) ++
    "</p>
                    </div>
                </div>
            </div>
            
            <div class=\"report-section\">
                <div class=\"section-header\">
                    <i class=\"fas fa-door-open\"></i>
                    <h3>Open Ports (" ++
    (count) ++
    ")</h3>
                </div>
                <div>
                    " ++
    (portsHTML) ++
    "
                </div>
            </div>
        </div>
    ")

/-- The body of `data.open_ports.forEach`: the text appended to `portsHTML`. -/
def portRow (host : Host) (port : JSVal) : Except JSError String := do
  let number ← (← port.get "port").toStr host
  let service ← (← port.get "service").toStr host
  pure (portTemplate number service)

/-- `displayNetworkResults(data)`: the HTML assigned to `#networkResults`. -/
def displayNetworkResults (host : Host) (data : JSVal) : Except JSError String := do
  let error ← data.get "error"
  if error.truthy then
    let text ← error.toStr host
    pure (scanErrorPanel text)
  else
    let threat_assessment ← data.get "threat_assessment"
    let level := threat_assessment.getOpt "level"
    let threatClass :=
      if level.strictEqStr "High" then "result-malicious"
      else if level.strictEqStr "Medium" then "result-suspicious"
      else "result-clean"
    let threatIcon :=
      if level.strictEqStr "High" then "skull-crossbones"
      else if level.strictEqStr "Medium" then "exclamation-triangle"
      else "check-circle"
    let open_ports ← data.get "open_ports"
    let portsHTML ←
      if open_ports.truthy then do
        if ← (← open_ports.get "length").gtZero host then
          open_ports.mapJoin (portRow host)
        else
          pure "<p>No open ports detected</p>"
      else
        pure "<p>No open ports detected</p>"
    let ip ← (← data.get "ip").toStr host
    let reachable ← data.get "reachable"
    let network_info ← data.get "network_info"
    let networkType ← ((network_info.getOpt "type").orElse (.str "Unknown")).toStr host
    let levelUpper ←
      match level with
      | .undefined => pure ""
      | .null => pure ""
      | v => v.callToUpperCase host
    let levelText := if levelUpper ≠ "" then levelUpper else "UNKNOWN"
    let score ← ((threat_assessment.getOpt "threat_score").orElse (.num 0)).toStr host
    let count ← ((open_ports.getOpt "length").orElse (.num 0)).toStr host
    pure (reportTemplate host.localeTimestamp ip
      (if reachable.truthy then "✅ Reachable" else "❌ Not Reachable") networkType threatClass
      threatIcon levelText score count portsHTML)

/-- `scanNetwork(ipAddress)` up to the call of `fetch`. -/
def scanNetwork (host : Host) (ipAddress : JSVal) (p : Page) : Page :=
  if !ipAddress.truthy then
    p.alert "Please enter an IP address"
  else
    match scanningPanel host ipAddress with
    | .error _ => p
    | .ok text =>
      (p.setHTML .networkResults text).fetch
        { url := "/api/v1/network/scan", method := "POST",
          headers := [("Content-Type", "application/json")],
          body := .json (.obj [("ip", ipAddress)]) }

/-- The second `.then` callback of `scanNetwork`; a `TypeError` inside it reaches the
`.catch` callback. -/
def scanNetworkThen (host : Host) (data : JSVal) (p : Page) : Page :=
  match displayNetworkResults host data with
  | .error _ => p.setHTML .networkResults (scanFailedPanel host.typeErrorMessage)
  | .ok text => p.setHTML .networkResults text

end AddNetworkScan

/-! ## The response contract (spec §6)

The shapes the spec allows an analysis endpoint to answer with, as predicates on the parsed
response.  A leaf field holds a primitive (a string, a number, a boolean, `null`, or it is
absent); a nested record is an object of leaf fields, or is absent. -/

namespace Contract

/-- A string value. -/
def isStr : JSVal → Bool
  | .str _ => true
  | _ => false

/-- A primitive value. -/
def isPrimitive : JSVal → Bool
  | .arr _ => false
  | .obj _ => false
  | _ => true

/-- The value of field `key`, `undefined` when the object has none. -/
def field (fields : List (String × JSVal)) (key : String) : JSVal :=
  (fields.lookup key).getD .undefined

/-- Field `key` is a leaf. -/
def leaf (fields : List (String × JSVal)) (key : String) : Bool :=
  isPrimitive (field fields key)

/-- A nested record with the given leaf fields, or an absent one. -/
def record (keys : List String) : JSVal → Bool
  | .undefined => true
  | .null => true
  | .obj fields => keys.all fun key => leaf fields key
  | _ => false

/-- One entry of `threat_indicators`: `type` and `severity` are strings, `description`
and `confidence` are leaves. -/
def indicator : JSVal → Bool
  | .obj fields =>
    isStr (field fields "type") && isStr (field fields "severity") &&
    leaf fields "description" && leaf fields "confidence"
  | _ => false

/-- The field `threat_indicators`: a list of indicators, or absent. -/
def indicators : JSVal → Bool
  | .undefined => true
  | .null => true
  | .arr items => items.all indicator
  | _ => false

/-- The field `analysis_engines`: a list of leaves. -/
def engines : JSVal → Bool
  | .arr items => items.all isPrimitive
  | _ => false

/-- The success shape of the endpoint for `type`: no `error` field, `risk_level` a string,
`confidence` a leaf, and the fields of that endpoint. -/
def successShape (type : String) : JSVal → Bool
  | .obj fields =>
    (fields.lookup "error").isNone && isStr (field fields "risk_level") &&
    leaf fields "confidence" &&
    (if type = "url" then
      record ["is_ethiopian", "organization_type", "verified"]
        (field fields "organization_context") &&
      indicators (field fields "threat_indicators") &&
      record ["openphish", "urlhaus"] (field fields "international_intel")
    else if type = "ip" then
      record ["country", "city", "isp"] (field fields "geo_location") &&
      record ["asn", "organization"] (field fields "asn_info") &&
      record ["provider"] (field fields "ethiopian_context")
    else if type = "file" then
      leaf fields "filename" && leaf fields "file_size" && leaf fields "file_type" &&
      leaf fields "file_hash" && engines (field fields "analysis_engines") &&
      indicators (field fields "threat_indicators")
    else
      false)
  | _ => false

/-- The error shape as the spec writes it: an object whose `error` field is a string. -/
def errorShape : JSVal → Bool
  | .obj fields => isStr (field fields "error")
  | _ => false

/-- The error shape with a non-empty text. -/
def populatedErrorShape : JSVal → Bool
  | .obj fields => isStr (field fields "error") && (field fields "error").truthy
  | _ => false

end Contract

/-- A page on which nothing has happened yet: empty inputs, no file, empty containers,
the counters as `updateThreatStats` leaves them after `DOMContentLoaded`. -/
def Page.blank (host : Host) : Page :=
  updateThreatStats host
    { urlInput := "", ipInput := "", currentFile := none, html := fun _ => "",
      totalScansText := "", threatsDetectedText := "", ethiopianOrgsText := "",
      confidenceRateText := "", threatStats := ThreatStats.initial,
      alerts := [], requests := [] }

/-! ## The score combiner (spec §4.3)

The repository holds no implementation of the combiner; the spec describes it. -/

/-- The severity of a threat indicator (spec §3). -/
inductive Severity where
  | low
  | medium
  | high
  deriving DecidableEq, Repr

/-- The risk tier of an assessment (spec §3). -/
inductive RiskLevel where
  | low
  | medium
  | high
  deriving DecidableEq, Repr

/-- A threat indicator (spec §3); `confidence` is a percentage. -/
structure ThreatIndicator where
  kind : String
  severity : Severity
  confidence : Nat
  description : String
  deriving DecidableEq, Repr

/-- Modelled from the spec: the table `severity_weight` of §4.3, low 10, medium 35,
high 70 (no source file defines it). -/
def severity_weight : Severity → ℚ
  | .low => 10
  | .medium => 35
  | .high => 70

/-- Modelled from the spec: the weighted sum of §4.3, the sum over the indicators of
`severity_weight(severity) * (confidence / 100)`, evaluated exactly. -/
def weightedSum (indicators : List ThreatIndicator) : ℚ :=
  (indicators.map fun i => severity_weight i.severity * ((i.confidence : ℚ) / 100)).sum

/-- Modelled from the spec: the threshold mapping of §4.3, `high` from 70, `medium` from
30, else `low`. -/
def riskLevelOf (threat_score : ℚ) : RiskLevel :=
  if threat_score ≥ 70 then .high
  else if threat_score ≥ 30 then .medium
  else .low

/-- Modelled from the spec: the score combiner `combine(indicators)` of §4.3, which the
repository does not implement: `threat_score` is the weighted sum capped at 100 and
`risk_level` its tier.  The spec gives no rounding rule, so the score stays a rational. -/
def combine (indicators : List ThreatIndicator) : ℚ × RiskLevel :=
  let threat_score := min 100 (weightedSum indicators)
  (threat_score, riskLevelOf threat_score)

/-! ## The dashboard as a transition system

The page together with the calls of `analyzeThreat` whose request is still unanswered.  A
promise settles once, so each pending call is answered by one response or one failure. -/

/-- The container `analyzeThreat` binds to `resultsContainer` for a type it accepts. -/
def resultsContainerOf (type : String) : Container :=
  if type = "url" then .urlResults
  else if type = "ip" then .ipResults
  else .fileResults

/-- The page and the types of the pending calls, oldest first. -/
structure Dashboard where
  page : Page
  pending : List String

/-- What can happen to the dashboard. -/
inductive DashboardEvent where
  /-- The user changes the inputs or the selected file. -/
  | edit (urlInput ipInput : String) (currentFile : Option JSFile)
  /-- A call `analyzeThreat(type)`. -/
  | analyze (type : String)
  /-- The response `data` arrives for pending call number `i`. -/
  | response (i : Nat) (data : JSVal)
  /-- The request of pending call number `i` fails with an error of the given message. -/
  | failure (i : Nat) (message : String)

/-- The dashboard after the page has loaded. -/
def Dashboard.initial (host : Host) : Dashboard :=
  { page := Page.blank host, pending := [] }

/-- One step of the dashboard.  A call is pending afterwards when it issued a request; a
response or a failure for a call that is not pending changes nothing. -/
def Dashboard.step (host : Host) (d : Dashboard) : DashboardEvent → Dashboard
  | .edit urlInput ipInput currentFile =>
    { d with page :=
        { d.page with urlInput := urlInput, ipInput := ipInput, currentFile := currentFile } }
  | .analyze type =>
    let page := analyzeThreat host type d.page
    { page := page
      pending :=
        if page.requests.length = d.page.requests.length + 1 then d.pending ++ [type]
        else d.pending }
  | .response i data =>
    match d.pending[i]? with
    | none => d
    | some type =>
      { page :=
          if type = "file" then uploadFileForAnalysisThen host .fileResults data d.page
          else analyzeThreatThen host type (resultsContainerOf type) data d.page
        pending := d.pending.eraseIdx i }
  | .failure i message =>
    match d.pending[i]? with
    | none => d
    | some type =>
      { page := analysisCatch (resultsContainerOf type) message d.page
        pending := d.pending.eraseIdx i }

/-- The states the dashboard can be in. -/
inductive Reachable (host : Host) : Dashboard → Prop where
  | initial : Reachable host (Dashboard.initial host)
  | step (d : Dashboard) (e : DashboardEvent) :
      Reachable host d → Reachable host (d.step host e)

/-! # Theorems -/

/-! ## Substring search -/

/-- The executable search `includesChars` decides the infix relation on lists. -/
theorem includesChars_iff (hay needle : List Char) :
    includesChars hay needle = true ↔ needle <:+: hay := by
  unfold includesChars
  rw [List.any_eq_true]
  constructor
  · rintro ⟨t, ht, hp⟩
    rw [List.mem_tails] at ht
    rw [List.isPrefixOf_iff_prefix] at hp
    exact List.IsInfix.trans hp.isInfix ht.isInfix
  · intro h
    obtain ⟨t, hp, hs⟩ := List.infix_iff_prefix_suffix.mp h
    exact ⟨t, (List.mem_tails _ _).mpr hs, List.isPrefixOf_iff_prefix.mpr hp⟩

/-- The string form: `s.includes(sub)` holds exactly when `sub` is a substring of `s`. -/
theorem includes_iff (s sub : String) :
    includes s sub = true ↔ sub.data <:+: s.data :=
  includesChars_iff s.data sub.data

/-! ## `determineOrganizationType` -/

/-- Membership form of the array test `indicators.includes(x)`. -/
theorem contains_eq_true_iff (xs : List String) (x : String) :
    xs.contains x = true ↔ x ∈ xs := by
  simp

/-- A financial marker in the list decides the outcome. -/
theorem determineOrganizationType_financial (xs : List String)
    (h : "cbe" ∈ xs ∨ "dashen" ∈ xs ∨ "awash" ∈ xs) :
    determineOrganizationType xs = "financial" := by
  unfold determineOrganizationType
  have : (xs.contains "cbe" || xs.contains "dashen" || xs.contains "awash") = true := by
    simpa [or_assoc] using h
  rw [if_pos this]

/-- Membership in the list of matches of `checkEthiopianContext`. -/
theorem mem_matchedIndicators (host : Host) (target m : String) :
    m ∈ (checkEthiopianContext host target).matchedIndicators ↔
      m ∈ ethiopianIndicators ∧ m.data <:+: (host.toLowerCase target).data := by
  simp only [checkEthiopianContext, List.mem_filter, includes_iff]

/-- C1: every target whose lower-cased form contains `cbe`, `dashen` or `awash` is
reported as Ethiopian with organization type `financial`, whatever other markers match. -/
theorem checkEthiopianContext_financial (host : Host) (target : String)
    (h : "cbe".data <:+: (host.toLowerCase target).data ∨
         "dashen".data <:+: (host.toLowerCase target).data ∨
         "awash".data <:+: (host.toLowerCase target).data) :
    (checkEthiopianContext host target).isEthiopian = true ∧
    (checkEthiopianContext host target).organizationType = "financial" := by
  have hm : "cbe" ∈ (checkEthiopianContext host target).matchedIndicators ∨
      "dashen" ∈ (checkEthiopianContext host target).matchedIndicators ∨
      "awash" ∈ (checkEthiopianContext host target).matchedIndicators := by
    rcases h with h | h | h
    · exact Or.inl ((mem_matchedIndicators host target _).mpr ⟨by decide, h⟩)
    · exact Or.inr (Or.inl ((mem_matchedIndicators host target _).mpr ⟨by decide, h⟩))
    · exact Or.inr (Or.inr ((mem_matchedIndicators host target _).mpr ⟨by decide, h⟩))
  constructor
  · have hpos : 0 < (checkEthiopianContext host target).matchedIndicators.length := by
      rcases hm with h | h | h <;> exact List.length_pos_of_mem h
    simpa [checkEthiopianContext] using hpos
  · exact determineOrganizationType_financial _ hm

/-- C1, the spec example: `cbe.com.et` matches `.et`, `cbe` and `com.et` and is classified
`financial`. -/
theorem checkEthiopianContext_financial_witness :
    ("cbe".data <:+: (asciiHost.toLowerCase "cbe.com.et").data ∨
       "dashen".data <:+: (asciiHost.toLowerCase "cbe.com.et").data ∨
       "awash".data <:+: (asciiHost.toLowerCase "cbe.com.et").data) ∧
    ((checkEthiopianContext asciiHost "cbe.com.et").isEthiopian = true ∧
      (checkEthiopianContext asciiHost "cbe.com.et").organizationType = "financial") ∧
    (checkEthiopianContext asciiHost "cbe.com.et").matchedIndicators = [".et", "cbe", "com.et"] :=
  ⟨Or.inl (by decide),
   checkEthiopianContext_financial asciiHost "cbe.com.et" (Or.inl (by decide)),
   by decide⟩

/-- C2: `determineOrganizationType` returns the first category, in the order financial,
government, telecom, infrastructure, that has a marker in the list, and `unknown` when
none has. -/
theorem determineOrganizationType_priority (xs : List String) :
    (("cbe" ∈ xs ∨ "dashen" ∈ xs ∨ "awash" ∈ xs) →
      determineOrganizationType xs = "financial") ∧
    (¬("cbe" ∈ xs ∨ "dashen" ∈ xs ∨ "awash" ∈ xs) → ("gov.et" ∈ xs ∨ ".et" ∈ xs) →
      determineOrganizationType xs = "government") ∧
    (¬("cbe" ∈ xs ∨ "dashen" ∈ xs ∨ "awash" ∈ xs) → ¬("gov.et" ∈ xs ∨ ".et" ∈ xs) →
      "ethiotelecom" ∈ xs → determineOrganizationType xs = "telecom") ∧
    (¬("cbe" ∈ xs ∨ "dashen" ∈ xs ∨ "awash" ∈ xs) → ¬("gov.et" ∈ xs ∨ ".et" ∈ xs) →
      "ethiotelecom" ∉ xs → "ethiopianairlines" ∈ xs →
      determineOrganizationType xs = "infrastructure") ∧
    (¬("cbe" ∈ xs ∨ "dashen" ∈ xs ∨ "awash" ∈ xs) → ¬("gov.et" ∈ xs ∨ ".et" ∈ xs) →
      "ethiotelecom" ∉ xs → "ethiopianairlines" ∉ xs →
      determineOrganizationType xs = "unknown") := by
  refine ⟨determineOrganizationType_financial xs, ?_, ?_, ?_, ?_⟩
  · intro h1 h2
    simp only [not_or] at h1
    unfold determineOrganizationType
    have e1 : (xs.contains "cbe" || xs.contains "dashen" || xs.contains "awash") = false := by
      simp [h1.1, h1.2.1, h1.2.2]
    have e2 : (xs.contains "gov.et" || xs.contains ".et") = true := by
      simpa using h2
    simp only [e1, e2, if_true, Bool.false_eq_true, if_false]
  · intro h1 h2 h3
    simp only [not_or] at h1 h2
    unfold determineOrganizationType
    have e1 : (xs.contains "cbe" || xs.contains "dashen" || xs.contains "awash") = false := by
      simp [h1.1, h1.2.1, h1.2.2]
    have e2 : (xs.contains "gov.et" || xs.contains ".et") = false := by
      simp [h2.1, h2.2]
    have e3 : xs.contains "ethiotelecom" = true := by simpa using h3
    simp only [e1, e2, e3, if_true, Bool.false_eq_true, if_false]
  · intro h1 h2 h3 h4
    simp only [not_or] at h1 h2
    unfold determineOrganizationType
    have e1 : (xs.contains "cbe" || xs.contains "dashen" || xs.contains "awash") = false := by
      simp [h1.1, h1.2.1, h1.2.2]
    have e2 : (xs.contains "gov.et" || xs.contains ".et") = false := by
      simp [h2.1, h2.2]
    have e3 : xs.contains "ethiotelecom" = false := by simpa using h3
    have e4 : xs.contains "ethiopianairlines" = true := by simpa using h4
    simp only [e1, e2, e3, e4, if_true, Bool.false_eq_true, if_false]
  · intro h1 h2 h3 h4
    simp only [not_or] at h1 h2
    unfold determineOrganizationType
    have e1 : (xs.contains "cbe" || xs.contains "dashen" || xs.contains "awash") = false := by
      simp [h1.1, h1.2.1, h1.2.2]
    have e2 : (xs.contains "gov.et" || xs.contains ".et") = false := by
      simp [h2.1, h2.2]
    have e3 : xs.contains "ethiotelecom" = false := by simpa using h3
    have e4 : xs.contains "ethiopianairlines" = false := by simpa using h4
    simp only [e1, e2, e3, e4, Bool.false_eq_true, if_false]

/-- C3: `determineOrganizationType` depends only on the set of markers present: two lists
with the same elements (so also any two permutations of one list, or a list and a copy with
repeated entries) get the same organization type. -/
theorem determineOrganizationType_ext (xs ys : List String)
    (h : ∀ x, x ∈ xs ↔ x ∈ ys) :
    determineOrganizationType xs = determineOrganizationType ys := by
  have hc : ∀ s, xs.contains s = ys.contains s := by
    intro s
    rw [Bool.eq_iff_iff, contains_eq_true_iff, contains_eq_true_iff]
    exact h s
  unfold determineOrganizationType
  simp only [hc]

/-- C3 at a concrete pair: a reordering with a repeated entry. -/
theorem determineOrganizationType_ext_witness :
    (∀ x, x ∈ [".et", "cbe", "com.et"] ↔ x ∈ ["com.et", "cbe", ".et", "cbe"]) ∧
    determineOrganizationType [".et", "cbe", "com.et"] =
      determineOrganizationType ["com.et", "cbe", ".et", "cbe"] :=
  ⟨by intro x; simp only [List.mem_cons, List.mem_singleton, List.not_mem_nil]; tauto,
   determineOrganizationType_ext _ _
     (by intro x; simp only [List.mem_cons, List.mem_singleton, List.not_mem_nil]; tauto)⟩

/-- C4: `checkEthiopianContext` sees the target only through its lower-cased form, so two
targets with equal lower-cased forms get the same result (all three fields); a string is
among the matched indicators exactly when it is one of the nine markers and a substring of
the lower-cased target. -/
theorem checkEthiopianContext_case_insensitive (host : Host) (t1 t2 : String)
    (h : host.toLowerCase t1 = host.toLowerCase t2) :
    ((checkEthiopianContext host t1).isEthiopian = (checkEthiopianContext host t2).isEthiopian ∧
     (checkEthiopianContext host t1).matchedIndicators =
       (checkEthiopianContext host t2).matchedIndicators ∧
     (checkEthiopianContext host t1).organizationType =
       (checkEthiopianContext host t2).organizationType) ∧
    ethiopianIndicators.length = 9 ∧
    (∀ m, m ∈ (checkEthiopianContext host t1).matchedIndicators ↔
      (m ∈ ethiopianIndicators ∧ m.data <:+: (host.toLowerCase t1).data)) := by
  refine ⟨?_, rfl, fun m => mem_matchedIndicators host t1 m⟩
  simp only [checkEthiopianContext, h, and_self]

/-- C4 at two spellings of one host name. -/
theorem checkEthiopianContext_case_insensitive_witness :
    asciiHost.toLowerCase "CBE.com.et" = asciiHost.toLowerCase "cbe.COM.ET" ∧
    checkEthiopianContext asciiHost "CBE.com.et" = checkEthiopianContext asciiHost "cbe.COM.ET" ∧
    (checkEthiopianContext asciiHost "CBE.com.et").matchedIndicators = [".et", "cbe", "com.et"] ∧
    ("gov.et" ∈ (checkEthiopianContext asciiHost "CBE.com.et").matchedIndicators ↔
      ("gov.et" ∈ ethiopianIndicators ∧
        "gov.et".data <:+: (asciiHost.toLowerCase "CBE.com.et").data)) :=
  ⟨by decide, by decide, by decide,
   (checkEthiopianContext_case_insensitive asciiHost "CBE.com.et" "cbe.COM.ET"
      (by decide)).2.2 "gov.et"⟩

/-! ## The exception monad -/

/-- A step that returns lets the rest of the block run. -/
theorem ok_bind {α β : Type} (a : α) (f : α → Except JSError β) :
    (Except.ok a >>= f) = f a := rfl

/-- A step that raises ends the block. -/
theorem error_bind {α β : Type} (e : JSError) (f : α → Except JSError β) :
    (Except.error e >>= f) = Except.error e := rfl

/-- Mapping over a returned value. -/
theorem map_ok {α β : Type} (a : α) (f : α → β) :
    f <$> (Except.ok a : Except JSError α) = Except.ok (f a) := rfl

/-- Returning is `ok`. -/
theorem pure_eq_ok {α : Type} (a : α) : (pure a : Except JSError α) = Except.ok a := rfl

/-! ## JavaScript values -/

/-- Reading a property of an object never raises. -/
theorem get_obj (fields : List (String × JSVal)) (key : String) :
    (JSVal.obj fields).get key = .ok ((fields.lookup key).getD .undefined) := rfl

/-- `ToString` of a string is the string. -/
theorem toStr_str (host : Host) (s : String) : (JSVal.str s).toStr host = .ok s := by
  simp [JSVal.toStr]

/-- A non-empty string is truthy. -/
theorem truthy_str (s : String) : (JSVal.str s).truthy = decide (s ≠ "") := rfl

/-! ## Error responses -/

/-- `displayEnhancedResults` on a response whose `error` is a non-empty string. -/
theorem displayEnhancedResults_error_panel (host : Host) (type : String)
    (fields : List (String × JSVal)) (e : String)
    (herr : fields.lookup "error" = some (.str e)) (hne : e ≠ "") :
    displayEnhancedResults host type (.obj fields) = .ok (analysisErrorPanel e) := by
  simp [displayEnhancedResults, get_obj, herr, truthy_str, hne, toStr_str, ok_bind, map_ok]

/-- `displayNetworkResults` of network_functions.js on such a response. -/
theorem networkFunctions_error_panel (host : Host)
    (fields : List (String × JSVal)) (e : String)
    (herr : fields.lookup "error" = some (.str e)) (hne : e ≠ "") :
    NetworkFunctions.displayNetworkResults host (.obj fields) =
      .ok (NetworkFunctions.scanErrorPanel e) := by
  simp [NetworkFunctions.displayNetworkResults, get_obj, herr, truthy_str, hne, toStr_str,
    ok_bind, map_ok]

/-- `displayNetworkResults` of add_network_scan.js on such a response. -/
theorem addNetworkScan_error_panel (host : Host)
    (fields : List (String × JSVal)) (e : String)
    (herr : fields.lookup "error" = some (.str e)) (hne : e ≠ "") :
    AddNetworkScan.displayNetworkResults host (.obj fields) =
      .ok (AddNetworkScan.scanErrorPanel e) := by
  simp [AddNetworkScan.displayNetworkResults, get_obj, herr, truthy_str, hne, toStr_str,
    ok_bind, map_ok]

/-- C5: a response object whose `error` field is a non-empty string makes
`displayEnhancedResults` (for every type) and both `displayNetworkResults` write the error
panel of that function, which is a fixed text before the error, the error text unchanged,
and a fixed text after it; the HTML depends on no other field of the response. -/
theorem error_response_rendered_verbatim (host : Host) (type : String)
    (fields : List (String × JSVal)) (e : String)
    (herr : fields.lookup "error" = some (.str e)) (hne : e ≠ "") :
    displayEnhancedResults host type (.obj fields) = .ok (analysisErrorPanel e) ∧
    NetworkFunctions.displayNetworkResults host (.obj fields) =
      .ok (NetworkFunctions.scanErrorPanel e) ∧
    AddNetworkScan.displayNetworkResults host (.obj fields) =
      .ok (AddNetworkScan.scanErrorPanel e) ∧
    (∃ pre post, ∀ s, analysisErrorPanel s = pre ++ s ++ post) ∧
    (∃ pre post, ∀ s, NetworkFunctions.scanErrorPanel s = pre ++ s ++ post) ∧
    (∃ pre post, ∀ s, AddNetworkScan.scanErrorPanel s = pre ++ s ++ post) := by
  exact ⟨displayEnhancedResults_error_panel host type fields e herr hne,
    networkFunctions_error_panel host fields e herr hne,
    addNetworkScan_error_panel host fields e herr hne,
    ⟨_, _, fun s => rfl⟩, ⟨_, _, fun s => rfl⟩, ⟨_, _, fun s => rfl⟩⟩

/-- C5 at a response that carries an error next to other fields. -/
theorem error_response_rendered_verbatim_witness :
    displayEnhancedResults asciiHost "url"
        (.obj [("risk_level", .str "high"), ("error", .str "<b>Invalid URL</b>"),
               ("threat_indicators", .arr [.null])]) =
      .ok (analysisErrorPanel "<b>Invalid URL</b>") ∧
    NetworkFunctions.displayNetworkResults asciiHost
        (.obj [("risk_level", .str "high"), ("error", .str "<b>Invalid URL</b>"),
               ("threat_indicators", .arr [.null])]) =
      .ok (NetworkFunctions.scanErrorPanel "<b>Invalid URL</b>") :=
  have h := error_response_rendered_verbatim asciiHost "url"
    [("risk_level", .str "high"), ("error", .str "<b>Invalid URL</b>"),
     ("threat_indicators", .arr [.null])] "<b>Invalid URL</b>" rfl (by decide)
  ⟨h.1, h.2.1⟩

/-! ## Rendering a response that has the contract's shape -/

/-- `ToString` of a primitive returns. -/
theorem toStr_ok_of_primitive (host : Host) (v : JSVal)
    (h : Contract.isPrimitive v = true) : ∃ s, v.toStr host = .ok s := by
  cases v <;> simp [JSVal.toStr, Contract.isPrimitive] at h ⊢

/-- `ToNumber` of a primitive returns. -/
theorem toNumber_ok_of_primitive (host : Host) (v : JSVal)
    (h : Contract.isPrimitive v = true) : ∃ n, v.toNumber host = .ok n := by
  cases v <;> simp [JSVal.toNumber, Contract.isPrimitive] at h ⊢

/-- `a || b` of two primitives is a primitive. -/
theorem orElse_primitive (a b : JSVal) (ha : Contract.isPrimitive a = true)
    (hb : Contract.isPrimitive b = true) : Contract.isPrimitive (a.orElse b) = true := by
  unfold JSVal.orElse
  split <;> assumption

/-- Reading a listed field of a record, with optional chaining, gives a primitive. -/
theorem getOpt_record (keys : List String) (v : JSVal) (key : String)
    (h : Contract.record keys v = true) (hk : key ∈ keys) :
    Contract.isPrimitive (v.getOpt key) = true := by
  cases v with
  | undefined => rfl
  | null => rfl
  | obj fields =>
    simp only [Contract.record, List.all_eq_true] at h
    exact h key hk
  | bool b => simp [Contract.record] at h
  | num q => simp [Contract.record] at h
  | str s => simp [Contract.record] at h
  | arr items => simp [Contract.record] at h

/-- A truthy record is an object, so its fields can be read. -/
theorem get_record (keys : List String) (v : JSVal) (key : String)
    (h : Contract.record keys v = true) (ht : v.truthy = true) (hk : key ∈ keys) :
    ∃ w, v.get key = .ok w ∧ Contract.isPrimitive w = true := by
  cases v with
  | undefined => simp [JSVal.truthy] at ht
  | null => simp [JSVal.truthy] at ht
  | obj fields =>
    simp only [Contract.record, List.all_eq_true] at h
    exact ⟨_, rfl, h key hk⟩
  | bool b => simp [Contract.record] at h
  | num q => simp [Contract.record] at h
  | str s => simp [Contract.record] at h
  | arr items => simp [Contract.record] at h

/-- Mapping a callback that returns on every element returns. -/
theorem mapItems_ok (f : JSVal → Except JSError String) (xs : List JSVal)
    (h : ∀ x ∈ xs, ∃ y, f x = .ok y) : ∃ ys, JSVal.mapItems f xs = .ok ys := by
  induction xs with
  | nil => exact ⟨[], rfl⟩
  | cons x xs ih =>
    obtain ⟨y, hy⟩ := h x (List.mem_cons_self x xs)
    obtain ⟨ys, hys⟩ := ih fun z hz => h z (List.mem_cons_of_mem x hz)
    exact ⟨y :: ys, by simp [JSVal.mapItems, hy, hys, ok_bind, pure_eq_ok]⟩

/-- `map(...).join('')` over an array returns when the callback does. -/
theorem mapJoin_ok (items : List JSVal) (f : JSVal → Except JSError String)
    (h : ∀ x ∈ items, ∃ y, f x = .ok y) : ∃ s, (JSVal.arr items).mapJoin f = .ok s := by
  obtain ⟨ys, hys⟩ := mapItems_ok f items h
  exact ⟨String.join ys, by simp [JSVal.mapJoin, hys, ok_bind, pure_eq_ok]⟩

/-- The length of an array is compared with zero without an exception. -/
theorem gtZero_num (host : Host) (q : ℚ) :
    (JSVal.num q).gtZero host = .ok (decide (0 < q)) := by
  simp [JSVal.gtZero, JSVal.toNumber, ok_bind, pure_eq_ok]

/-- The indicator block of the URL report returns on an indicator of the contract. -/
theorem urlIndicatorBlock_ok (host : Host) (v : JSVal) (h : Contract.indicator v = true) :
    ∃ s, urlIndicatorBlock host v = .ok s := by
  cases v with
  | obj fields =>
    simp only [Contract.indicator, Bool.and_eq_true] at h
    obtain ⟨⟨⟨ht, hs⟩, hd⟩, hc⟩ := h
    obtain ⟨d, hd⟩ := toStr_ok_of_primitive host _ hd
    obtain ⟨c, hc⟩ := toStr_ok_of_primitive host _ hc
    unfold Contract.field at ht hs hd hc
    cases hty : (fields.lookup "type").getD .undefined <;>
      simp [hty, Contract.isStr] at ht
    cases hsv : (fields.lookup "severity").getD .undefined <;>
      simp [hsv, Contract.isStr] at hs
    simp [urlIndicatorBlock, get_obj, hty, hsv, hd, hc, JSVal.callToUpperCase, ok_bind,
      pure_eq_ok]
  | undefined => simp [Contract.indicator] at h
  | null => simp [Contract.indicator] at h
  | bool b => simp [Contract.indicator] at h
  | num q => simp [Contract.indicator] at h
  | str s => simp [Contract.indicator] at h
  | arr items => simp [Contract.indicator] at h

/-- The indicator block of the file report returns on an indicator of the contract. -/
theorem fileIndicatorBlock_ok (host : Host) (v : JSVal) (h : Contract.indicator v = true) :
    ∃ s, fileIndicatorBlock host v = .ok s := by
  cases v with
  | obj fields =>
    simp only [Contract.indicator, Bool.and_eq_true] at h
    obtain ⟨⟨⟨ht, _⟩, hd⟩, hc⟩ := h
    obtain ⟨d, hd⟩ := toStr_ok_of_primitive host _ hd
    obtain ⟨c, hc⟩ := toStr_ok_of_primitive host _ hc
    unfold Contract.field at ht hd hc
    cases hty : (fields.lookup "type").getD .undefined <;>
      simp [hty, Contract.isStr] at ht
    simp [fileIndicatorBlock, get_obj, hty, hd, hc, JSVal.callToUpperCase, ok_bind,
      pure_eq_ok]
  | undefined => simp [Contract.indicator] at h
  | null => simp [Contract.indicator] at h
  | bool b => simp [Contract.indicator] at h
  | num q => simp [Contract.indicator] at h
  | str s => simp [Contract.indicator] at h
  | arr items => simp [Contract.indicator] at h

/-- The indicator section returns on a `threat_indicators` field of the contract. -/
theorem threatsHTML_ok (host : Host) (ti : JSVal) (block : JSVal → Except JSError String)
    (h : Contract.indicators ti = true)
    (hb : ∀ v, Contract.indicator v = true → ∃ s, block v = .ok s) :
    ∃ s, threatsHTML host ti block = .ok s := by
  cases ti with
  | undefined => exact ⟨"", by simp [threatsHTML, JSVal.truthy, pure_eq_ok]⟩
  | null => exact ⟨"", by simp [threatsHTML, JSVal.truthy, pure_eq_ok]⟩
  | arr items =>
    simp only [Contract.indicators, List.all_eq_true] at h
    obtain ⟨s, hs⟩ := mapJoin_ok items block fun x hx => hb x (h x hx)
    by_cases hpos : (0 : ℚ) < (items.length : ℚ)
    · exact ⟨s, by simp [threatsHTML, JSVal.truthy, JSVal.get, gtZero_num, hpos, hs, ok_bind]⟩
    · exact ⟨"", by
        simp [threatsHTML, JSVal.truthy, JSVal.get, gtZero_num, hpos, ok_bind, pure_eq_ok]⟩
  | bool b => simp [Contract.indicators] at h
  | num q => simp [Contract.indicators] at h
  | str s => simp [Contract.indicators] at h
  | obj fields => simp [Contract.indicators] at h

/-- The count in the section heading returns on a `threat_indicators` field of the
contract. -/
theorem indicatorCount_ok (host : Host) (ti : JSVal) (h : Contract.indicators ti = true) :
    ∃ s, indicatorCount host ti = .ok s := by
  unfold indicatorCount
  apply toStr_ok_of_primitive
  refine orElse_primitive _ _ ?_ rfl
  cases ti with
  | undefined => rfl
  | null => rfl
  | arr items => simp [JSVal.getOpt, JSVal.get, Contract.isPrimitive]
  | bool b => simp [Contract.indicators] at h
  | num q => simp [Contract.indicators] at h
  | str s => simp [Contract.indicators] at h
  | obj fields => simp [Contract.indicators] at h

/-- `generateURLAnalysisContent` returns on the fields of the URL endpoint. -/
theorem generateURLAnalysisContent_ok (host : Host) (fields : List (String × JSVal))
    (horg : Contract.record ["is_ethiopian", "organization_type", "verified"]
      (Contract.field fields "organization_context") = true)
    (hti : Contract.indicators (Contract.field fields "threat_indicators") = true)
    (hintel : Contract.record ["openphish", "urlhaus"]
      (Contract.field fields "international_intel") = true) :
    ∃ s, generateURLAnalysisContent host (.obj fields) = .ok s := by
  obtain ⟨t, ht⟩ :=
    threatsHTML_ok host _ (urlIndicatorBlock host) hti (urlIndicatorBlock_ok host)
  obtain ⟨c, hc⟩ := indicatorCount_ok host _ hti
  obtain ⟨o, ho⟩ := toStr_ok_of_primitive host _
    (orElse_primitive _ (.str "Not detected")
      (getOpt_record _ _ "openphish" hintel (by simp)) rfl)
  obtain ⟨u, hu⟩ := toStr_ok_of_primitive host _
    (orElse_primitive _ (.str "Not detected")
      (getOpt_record _ _ "urlhaus" hintel (by simp)) rfl)
  unfold Contract.field at horg ht hc ho hu
  by_cases hto : ((fields.lookup "organization_context").getD .undefined).truthy = true
  · obtain ⟨w1, hw1, _⟩ := get_record _ _ "is_ethiopian" horg hto (by simp)
    obtain ⟨w2, hw2, hp2⟩ := get_record _ _ "organization_type" horg hto (by simp)
    obtain ⟨w3, hw3, _⟩ := get_record _ _ "verified" horg hto (by simp)
    obtain ⟨s2, hs2⟩ := toStr_ok_of_primitive host w2 hp2
    simp [generateURLAnalysisContent, get_obj, hto, hw1, hw2, hw3, hs2, ht, hc, ho, hu,
      ok_bind, pure_eq_ok]
  · simp [generateURLAnalysisContent, get_obj, hto, ht, hc, ho, hu, ok_bind, pure_eq_ok]

/-- `generateIPAnalysisContent` returns on the fields of the IP endpoint. -/
theorem generateIPAnalysisContent_ok (host : Host) (fields : List (String × JSVal))
    (hgeo : Contract.record ["country", "city", "isp"]
      (Contract.field fields "geo_location") = true)
    (hasn : Contract.record ["asn", "organization"]
      (Contract.field fields "asn_info") = true)
    (heth : Contract.record ["provider"]
      (Contract.field fields "ethiopian_context") = true) :
    ∃ s, generateIPAnalysisContent host (.obj fields) = .ok s := by
  obtain ⟨a1, h1⟩ := toStr_ok_of_primitive host _
    (orElse_primitive _ (.str "Unknown") (getOpt_record _ _ "country" hgeo (by simp)) rfl)
  obtain ⟨a2, h2⟩ := toStr_ok_of_primitive host _
    (orElse_primitive _ (.str "Unknown") (getOpt_record _ _ "city" hgeo (by simp)) rfl)
  obtain ⟨a3, h3⟩ := toStr_ok_of_primitive host _
    (orElse_primitive _ (.str "Unknown") (getOpt_record _ _ "isp" hgeo (by simp)) rfl)
  obtain ⟨a4, h4⟩ := toStr_ok_of_primitive host _
    (orElse_primitive _ (.str "Unknown") (getOpt_record _ _ "asn" hasn (by simp)) rfl)
  obtain ⟨a5, h5⟩ := toStr_ok_of_primitive host _
    (orElse_primitive _ (.str "Unknown")
      (getOpt_record _ _ "organization" hasn (by simp)) rfl)
  unfold Contract.field at heth h1 h2 h3 h4 h5
  by_cases hte : ((fields.lookup "ethiopian_context").getD .undefined).truthy = true
  · obtain ⟨w, hw, hp⟩ := get_record _ _ "provider" heth hte (by simp)
    obtain ⟨s, hs⟩ := toStr_ok_of_primitive host w hp
    simp [generateIPAnalysisContent, get_obj, hte, hw, hs, h1, h2, h3, h4, h5, ok_bind,
      pure_eq_ok]
  · simp [generateIPAnalysisContent, get_obj, hte, h1, h2, h3, h4, h5, ok_bind,
      pure_eq_ok]

/-- The engine badge returns on a primitive. -/
theorem engineBadge_ok (host : Host) (v : JSVal) (h : Contract.isPrimitive v = true) :
    ∃ s, engineBadge host v = .ok s := by
  obtain ⟨s, hs⟩ := toStr_ok_of_primitive host v h
  exact ⟨engineTemplate s, by simp [engineBadge, hs, ok_bind, pure_eq_ok]⟩

/-- `generateFileAnalysisContent` returns on the fields of the file endpoint. -/
theorem generateFileAnalysisContent_ok (host : Host) (fields : List (String × JSVal))
    (hname : Contract.leaf fields "filename" = true)
    (hsize : Contract.leaf fields "file_size" = true)
    (htype : Contract.leaf fields "file_type" = true)
    (hhash : Contract.leaf fields "file_hash" = true)
    (heng : Contract.engines (Contract.field fields "analysis_engines") = true)
    (hti : Contract.indicators (Contract.field fields "threat_indicators") = true) :
    ∃ s, generateFileAnalysisContent host (.obj fields) = .ok s := by
  obtain ⟨t, ht⟩ :=
    threatsHTML_ok host _ (fileIndicatorBlock host) hti (fileIndicatorBlock_ok host)
  obtain ⟨c, hc⟩ := indicatorCount_ok host _ hti
  obtain ⟨a1, h1⟩ := toStr_ok_of_primitive host _ hname
  obtain ⟨a2, h2⟩ := toNumber_ok_of_primitive host _ hsize
  obtain ⟨a3, h3⟩ := toStr_ok_of_primitive host _ htype
  obtain ⟨a4, h4⟩ := toStr_ok_of_primitive host _ hhash
  unfold Contract.field at ht hc h1 h2 h3 h4 heng
  cases he : (fields.lookup "analysis_engines").getD .undefined with
  | arr items =>
    rw [he] at heng
    simp only [Contract.engines, List.all_eq_true] at heng
    obtain ⟨e, hes⟩ := mapJoin_ok items (engineBadge host)
      fun x hx => engineBadge_ok host x (heng x hx)
    simp [generateFileAnalysisContent, get_obj, he, hes, ht, hc, h1, h2, h3, h4, ok_bind,
      pure_eq_ok]
  | undefined => simp [he, Contract.engines] at heng
  | null => simp [he, Contract.engines] at heng
  | bool b => simp [he, Contract.engines] at heng
  | num q => simp [he, Contract.engines] at heng
  | str s => simp [he, Contract.engines] at heng
  | obj fs => simp [he, Contract.engines] at heng

/-- `generateRecommendations` returns on every object. -/
theorem generateRecommendations_ok (fields : List (String × JSVal)) (type : String) :
    ∃ s, generateRecommendations (.obj fields) type = .ok s := by
  simp [generateRecommendations, recommendations, get_obj, ok_bind, pure_eq_ok]

/-- A response that has the success shape of the endpoint for `type` is rendered:
`displayEnhancedResults` returns. -/
theorem displayEnhancedResults_returns (host : Host) (type : String) (data : JSVal)
    (h : Contract.successShape type data = true) :
    ∃ html, displayEnhancedResults host type data = .ok html := by
  cases data with
  | obj fields =>
    simp only [Contract.successShape, Bool.and_eq_true, Option.isNone_iff_eq_none] at h
    obtain ⟨⟨⟨herr, hrl⟩, hconf⟩, hrest⟩ := h
    obtain ⟨c, hc⟩ := toStr_ok_of_primitive host _ hconf
    obtain ⟨r, hr⟩ := generateRecommendations_ok fields type
    unfold Contract.field at hrl hc
    cases hlv : (fields.lookup "risk_level").getD .undefined <;>
      simp [hlv, Contract.isStr] at hrl
    by_cases h1 : type = "url"
    · rw [if_pos h1] at hrest
      simp only [Bool.and_eq_true] at hrest
      obtain ⟨s, hs⟩ :=
        generateURLAnalysisContent_ok host fields hrest.1.1 hrest.1.2 hrest.2
      subst h1
      simp [displayEnhancedResults, get_obj, herr, JSVal.truthy, hlv, hs, hc, hr,
        JSVal.callToUpperCase, ok_bind, pure_eq_ok]
    · by_cases h2 : type = "ip"
      · rw [if_neg h1, if_pos h2] at hrest
        simp only [Bool.and_eq_true] at hrest
        obtain ⟨s, hs⟩ :=
          generateIPAnalysisContent_ok host fields hrest.1.1 hrest.1.2 hrest.2
        subst h2
        simp [displayEnhancedResults, get_obj, herr, JSVal.truthy, hlv, hs, hc, hr,
          JSVal.callToUpperCase, ok_bind, pure_eq_ok]
      · by_cases h3 : type = "file"
        · rw [if_neg h1, if_neg h2, if_pos h3] at hrest
          simp only [Bool.and_eq_true] at hrest
          obtain ⟨s, hs⟩ := generateFileAnalysisContent_ok host fields
            hrest.1.1.1.1.1 hrest.1.1.1.1.2 hrest.1.1.1.2 hrest.1.1.2 hrest.1.2 hrest.2
          subst h3
          simp [displayEnhancedResults, get_obj, herr, JSVal.truthy, hlv, hs, hc, hr,
            JSVal.callToUpperCase, ok_bind, pure_eq_ok]
        · simp [h1, h2, h3] at hrest
  | undefined => simp [Contract.successShape] at h
  | null => simp [Contract.successShape] at h
  | bool b => simp [Contract.successShape] at h
  | num q => simp [Contract.successShape] at h
  | str s => simp [Contract.successShape] at h
  | arr items => simp [Contract.successShape] at h

/-- C6, as amended: for each of the types `url`, `ip`, `file` and every response that has
the success shape of that endpoint, and for every type and every response whose `error` is
a non-empty string, `displayEnhancedResults` returns the HTML for the container and raises
no exception. -/
theorem displayEnhancedResults_accepts (host : Host) (type : String) (data : JSVal)
    (h : Contract.successShape type data = true ∨
         Contract.populatedErrorShape data = true) :
    ∃ html, displayEnhancedResults host type data = .ok html := by
  rcases h with h | h
  · exact displayEnhancedResults_returns host type data h
  · cases data with
    | obj fields =>
      simp only [Contract.populatedErrorShape, Bool.and_eq_true, Contract.field] at h
      obtain ⟨hs, ht⟩ := h
      cases he : (fields.lookup "error").getD .undefined with
      | str e =>
        rw [he] at ht
        simp [displayEnhancedResults, get_obj, he, ht, toStr_str, ok_bind, map_ok, pure_eq_ok]
      | _ => simp [he, Contract.isStr] at hs
    | undefined => simp [Contract.populatedErrorShape] at h
    | null => simp [Contract.populatedErrorShape] at h
    | bool b => simp [Contract.populatedErrorShape] at h
    | num q => simp [Contract.populatedErrorShape] at h
    | str s => simp [Contract.populatedErrorShape] at h
    | arr items => simp [Contract.populatedErrorShape] at h

/-- Without a truthy `error` and without a string `risk_level` the report cannot be
built: `data.risk_level.toUpperCase()` raises, if the type-specific content did not raise
before. -/
theorem displayEnhancedResults_raises (host : Host) (type : String)
    (fields : List (String × JSVal))
    (herr : ((fields.lookup "error").getD .undefined).truthy = false)
    (hrl : Contract.isStr ((fields.lookup "risk_level").getD .undefined) = false) :
    displayEnhancedResults host type (.obj fields) = .error .typeError := by
  have hup : JSVal.callToUpperCase host ((fields.lookup "risk_level").getD .undefined) =
      .error .typeError := by
    cases h : (fields.lookup "risk_level").getD .undefined <;>
      simp [h, Contract.isStr, JSVal.callToUpperCase] at hrl ⊢
  have key : ∀ r : Except JSError String,
      (r >>= fun specificContent =>
        JSVal.callToUpperCase host ((fields.lookup "risk_level").getD .undefined) >>=
          fun riskUpper =>
            JSVal.toStr host ((fields.lookup "confidence").getD .undefined) >>=
              fun confidence =>
                generateRecommendations (.obj fields) type >>= fun recs =>
                  Except.ok (reportTemplate (host.toUpperCase type) host.localeTimestamp
                    (threatClass ((fields.lookup "risk_level").getD .undefined))
                    (verdictIcon ((fields.lookup "risk_level").getD .undefined))
                    riskUpper confidence specificContent recs)) = .error .typeError := by
    intro r
    cases r with
    | error e => cases e; rfl
    | ok s => rw [ok_bind, hup]; rfl
  simp only [displayEnhancedResults, get_obj, ok_bind, herr, Bool.false_eq_true, if_false,
    pure_eq_ok]
  split_ifs
  · exact key _
  · exact key _
  · exact key _
  · exact key (Except.ok "")

/-- C6, the input on which the claim as stated fails: the response whose only field is
`error`, holding the empty string, has the error shape of the contract, and
`displayEnhancedResults` raises a `TypeError` on it for each of the three types. -/
theorem displayEnhancedResults_raises_on_empty_error :
    Contract.errorShape (.obj [("error", .str "")]) = true ∧
    displayEnhancedResults asciiHost "url" (.obj [("error", .str "")]) = .error .typeError ∧
    displayEnhancedResults asciiHost "ip" (.obj [("error", .str "")]) = .error .typeError ∧
    displayEnhancedResults asciiHost "file" (.obj [("error", .str "")]) = .error .typeError :=
  ⟨rfl, displayEnhancedResults_raises _ _ _ rfl rfl, displayEnhancedResults_raises _ _ _ rfl rfl,
   displayEnhancedResults_raises _ _ _ rfl rfl⟩

/-- C6 as amended, at a URL response of the contract. -/
theorem displayEnhancedResults_accepts_witness :
    Contract.successShape "url"
      (.obj [("risk_level", .str "high"), ("confidence", .num 87),
        ("threat_indicators", .arr [.obj [("type", .str "phishing"),
          ("severity", .str "high"), ("description", .str "Known phishing domain"),
          ("confidence", .num 90)]]),
        ("organization_context", .obj [("is_ethiopian", .bool true),
          ("organization_type", .str "financial"), ("verified", .bool false)]),
        ("international_intel", .obj [("openphish", .str "listed"),
          ("urlhaus", .null)])]) = true ∧
    ∃ html, displayEnhancedResults asciiHost "url"
      (.obj [("risk_level", .str "high"), ("confidence", .num 87),
        ("threat_indicators", .arr [.obj [("type", .str "phishing"),
          ("severity", .str "high"), ("description", .str "Known phishing domain"),
          ("confidence", .num 90)]]),
        ("organization_context", .obj [("is_ethiopian", .bool true),
          ("organization_type", .str "financial"), ("verified", .bool false)]),
        ("international_intel", .obj [("openphish", .str "listed"),
          ("urlhaus", .null)])]) = .ok html :=
  ⟨by decide, displayEnhancedResults_accepts asciiHost "url" _ (Or.inl (by decide))⟩

/-! ## The threat tally -/

/-- `updateThreatStats` rewrites the counters on screen and leaves `threatStats` alone. -/
theorem updateThreatStats_threatStats (host : Host) (p : Page) :
    (updateThreatStats host p).threatStats = p.threatStats := rfl

/-- Writing a container leaves `threatStats` alone. -/
theorem setHTML_threatStats (p : Page) (c : Container) (text : String) :
    (p.setHTML c text).threatStats = p.threatStats := rfl

/-- C7, the code at the failing input: an error response that carries no `risk_level`
is shown as an error and then counted as a detected threat, by the callback of
`analyzeThreat` and by the callback of `uploadFileForAnalysis`, because
`undefined !== 'low'` holds. -/
theorem error_response_counted_as_threat (host : Host) (p : Page) :
    (analyzeThreatThen host "url" .urlResults
        (.obj [("error", .str "Invalid URL format")]) p).threatStats.threatsDetected =
      p.threatStats.threatsDetected + 1 ∧
    (uploadFileForAnalysisThen host .fileResults
        (.obj [("error", .str "File too large")]) p).threatStats.threatsDetected =
      p.threatStats.threatsDetected + 1 := by
  have h1 := displayEnhancedResults_error_panel host "url"
    [("error", .str "Invalid URL format")] "Invalid URL format" rfl (by decide)
  have h2 := displayEnhancedResults_error_panel host "file"
    [("error", .str "File too large")] "File too large" rfl (by decide)
  constructor
  · simp only [analyzeThreatThen, h1]
    rfl
  · simp only [uploadFileForAnalysisThen, h2]
    rfl

/-! ## `trim` -/

/-- `trim` splits its argument into a run of white space, the result, and a run of white
space; the result neither starts nor ends with white space. -/
theorem trim_spec (s : String) :
    ∃ pre post : List Char, s.data = pre ++ (trim s).data ++ post ∧
      (∀ c ∈ pre, isJSWhiteSpace c = true) ∧ (∀ c ∈ post, isJSWhiteSpace c = true) ∧
      (∀ c, (trim s).data.head? = some c → isJSWhiteSpace c = false) ∧
      (∀ c, (trim s).data.getLast? = some c → isJSWhiteSpace c = false) := by
  have hsplit : (s.data.dropWhile isJSWhiteSpace) =
      (trim s).data ++ ((s.data.dropWhile isJSWhiteSpace).reverse.takeWhile
        isJSWhiteSpace).reverse := by
    have h := List.takeWhile_append_dropWhile isJSWhiteSpace
      (s.data.dropWhile isJSWhiteSpace).reverse
    have h2 := congrArg List.reverse h
    rw [List.reverse_append, List.reverse_reverse] at h2
    exact h2.symm
  have hlast : ∀ c, (trim s).data.getLast? = some c → isJSWhiteSpace c = false := by
    intro c hc
    have h := List.head?_dropWhile_not isJSWhiteSpace
      (s.data.dropWhile isJSWhiteSpace).reverse
    simp only [trim, List.getLast?_reverse] at hc
    rw [hc] at h
    simpa using h
  refine ⟨s.data.takeWhile isJSWhiteSpace,
    ((s.data.dropWhile isJSWhiteSpace).reverse.takeWhile isJSWhiteSpace).reverse,
    ?_, ?_, ?_, ?_, hlast⟩
  · rw [List.append_assoc, ← hsplit, List.takeWhile_append_dropWhile]
  · intro c hc
    exact List.mem_takeWhile_imp hc
  · intro c hc
    exact List.mem_takeWhile_imp (List.mem_reverse.mp hc)
  · intro c hc
    have h := List.head?_dropWhile_not isJSWhiteSpace s.data
    have hhead : (s.data.dropWhile isJSWhiteSpace).head? = some c := by
      rw [hsplit, List.head?_append, hc]
      rfl
    rw [hhead] at h
    simpa using h

/-! ## Routing of `analyzeThreat` -/

/-- The progress panel exists for the three types. -/
theorem showEnhancedAnalysisProgress_ok (host : Host) (type inputValue : String)
    (h : type = "url" ∨ type = "ip" ∨ type = "file") :
    ∃ text, showEnhancedAnalysisProgress host type inputValue = .ok text := by
  rcases h with h | h | h <;> subst h <;>
    simp [showEnhancedAnalysisProgress, analysisSteps]

/-- C8: `analyzeThreat` routes each accepted input to the endpoint of its type.  A URL or
an IP whose trimmed value `v` is not empty, and a selected file whose name is not empty
(the inputs `analyzeThreat` accepts), make it issue exactly one request: a POST to the
endpoint of the type, with JSON body `url: v` or `ip: v`, or with the file in the multipart
field `file` and no JSON request.  The trimmed value is the input without its leading and
trailing white space. -/
theorem analyzeThreat_routes (host : Host) (p : Page) :
    (trim p.urlInput ≠ "" →
      (analyzeThreat host "url" p).requests = p.requests ++
        [{ url := "/api/v1/analysis/url", method := "POST",
           headers := [("Content-Type", "application/json")],
           body := .json (.obj [("url", .str (trim p.urlInput))]) }]) ∧
    (trim p.ipInput ≠ "" →
      (analyzeThreat host "ip" p).requests = p.requests ++
        [{ url := "/api/v1/analysis/ip", method := "POST",
           headers := [("Content-Type", "application/json")],
           body := .json (.obj [("ip", .str (trim p.ipInput))]) }]) ∧
    (∀ file, p.currentFile = some file → file.name ≠ "" →
      (analyzeThreat host "file" p).requests = p.requests ++
        [{ url := "/api/v1/analysis/file", method := "POST", headers := [],
           body := .formData [("file", file)] }]) ∧
    (∀ s : String, ∃ pre post : List Char, s.data = pre ++ (trim s).data ++ post ∧
      (∀ c ∈ pre, isJSWhiteSpace c = true) ∧ (∀ c ∈ post, isJSWhiteSpace c = true) ∧
      (∀ c, (trim s).data.head? = some c → isJSWhiteSpace c = false) ∧
      (∀ c, (trim s).data.getLast? = some c → isJSWhiteSpace c = false)) := by
  refine ⟨?_, ?_, ?_, trim_spec⟩
  · intro h
    obtain ⟨text, ht⟩ :=
      showEnhancedAnalysisProgress_ok host "url" (trim p.urlInput) (Or.inl rfl)
    simp [analyzeThreat, h, ht, Page.fetch, Page.setHTML, updateThreatStats]
  · intro h
    obtain ⟨text, ht⟩ :=
      showEnhancedAnalysisProgress_ok host "ip" (trim p.ipInput) (Or.inr (Or.inl rfl))
    simp [analyzeThreat, h, ht, Page.fetch, Page.setHTML, updateThreatStats]
  · intro file hf h
    obtain ⟨text, ht⟩ :=
      showEnhancedAnalysisProgress_ok host "file" file.name (Or.inr (Or.inr rfl))
    simp [analyzeThreat, hf, h, ht, Page.fetch, Page.setHTML, updateThreatStats,
      uploadFileForAnalysis]

/-- A selected file whose name is empty is not an accepted input: `analyzeThreat('file')`
shows the alert of the `if (!inputValue)` guard and issues no request. -/
theorem analyzeThreat_file_without_name :
    (analyzeThreat asciiHost "file"
        { Page.blank asciiHost with currentFile := some { name := "", bytes := [80, 75] } }
      ).requests = [] ∧
    (analyzeThreat asciiHost "file"
        { Page.blank asciiHost with currentFile := some { name := "", bytes := [80, 75] } }
      ).alerts = ["Please enter a file to analyze"] := by
  constructor <;> simp [analyzeThreat, Page.blank, updateThreatStats, Page.alert]

/-- C8 on a page with a padded URL, and on a page with a named file. -/
theorem analyzeThreat_routes_witness :
    (analyzeThreat asciiHost "url"
        { Page.blank asciiHost with urlInput := "  http://cbe.com.et/login \n" }).requests =
      [{ url := "/api/v1/analysis/url", method := "POST",
         headers := [("Content-Type", "application/json")],
         body := .json (.obj [("url", .str "http://cbe.com.et/login")]) }] ∧
    (analyzeThreat asciiHost "file"
        { Page.blank asciiHost with
            currentFile := some { name := "a.exe", bytes := [77, 90] } }).requests =
      [{ url := "/api/v1/analysis/file", method := "POST", headers := [],
         body := .formData [("file", { name := "a.exe", bytes := [77, 90] })] }] :=
  ⟨(analyzeThreat_routes asciiHost
      { Page.blank asciiHost with urlInput := "  http://cbe.com.et/login \n" }).1
      (by decide),
   (analyzeThreat_routes asciiHost
      { Page.blank asciiHost with
          currentFile := some { name := "a.exe", bytes := [77, 90] } }).2.2.1
      { name := "a.exe", bytes := [77, 90] } rfl (by decide)⟩

/-! ## The two `scanNetwork` -/

/-- The request both `scanNetwork` issue for the address `ipAddress`. -/
theorem scanNetwork_requests_eq (host : Host) (ipAddress : JSVal) (p : Page) :
    (NetworkFunctions.scanNetwork host ipAddress p).requests =
      (AddNetworkScan.scanNetwork host ipAddress p).requests := by
  unfold NetworkFunctions.scanNetwork AddNetworkScan.scanNetwork
    NetworkFunctions.showScanProgress AddNetworkScan.scanningPanel
  by_cases ht : ipAddress.truthy = true
  · cases hs : ipAddress.toStr host with
    | error e => simp [ht, hs, error_bind]
    | ok text => simp [ht, hs, ok_bind, pure_eq_ok, Page.fetch, Page.setHTML]
  · simp [ht, Page.alert]

/-- C9: the two `scanNetwork` have the same request behaviour.  For a missing
(`undefined`, `null`) or empty address they issue no request and leave every container
as it was; for a non-empty address they issue exactly one POST to `/api/v1/network/scan`
whose JSON body holds the address unmodified under `ip`; and for every argument at all
the two issue the same requests. -/
theorem scanNetwork_request_behaviour (host : Host) (p : Page) :
    (∀ ipAddress, ipAddress = .undefined ∨ ipAddress = .null ∨ ipAddress = .str "" →
      (NetworkFunctions.scanNetwork host ipAddress p).requests = p.requests ∧
      (NetworkFunctions.scanNetwork host ipAddress p).html = p.html ∧
      (AddNetworkScan.scanNetwork host ipAddress p).requests = p.requests ∧
      (AddNetworkScan.scanNetwork host ipAddress p).html = p.html) ∧
    (∀ s : String, s ≠ "" →
      (NetworkFunctions.scanNetwork host (.str s) p).requests = p.requests ++
        [{ url := "/api/v1/network/scan", method := "POST",
           headers := [("Content-Type", "application/json")],
           body := .json (.obj [("ip", .str s)]) }] ∧
      (AddNetworkScan.scanNetwork host (.str s) p).requests = p.requests ++
        [{ url := "/api/v1/network/scan", method := "POST",
           headers := [("Content-Type", "application/json")],
           body := .json (.obj [("ip", .str s)]) }]) ∧
    (∀ ipAddress, (NetworkFunctions.scanNetwork host ipAddress p).requests =
      (AddNetworkScan.scanNetwork host ipAddress p).requests) := by
  refine ⟨?_, ?_, fun ipAddress => scanNetwork_requests_eq host ipAddress p⟩
  · rintro ipAddress (h | h | h) <;> subst h <;>
      simp [NetworkFunctions.scanNetwork, AddNetworkScan.scanNetwork, JSVal.truthy,
        Page.alert]
  · intro s hs
    simp [NetworkFunctions.scanNetwork, AddNetworkScan.scanNetwork, truthy_str, hs,
      NetworkFunctions.showScanProgress, AddNetworkScan.scanningPanel, toStr_str, ok_bind,
      pure_eq_ok, Page.fetch, Page.setHTML]

/-- C9 on a blank page: an empty address and the address `196.188.0.1`. -/
theorem scanNetwork_request_behaviour_witness :
    (NetworkFunctions.scanNetwork asciiHost (.str "") (Page.blank asciiHost)).requests = [] ∧
    (AddNetworkScan.scanNetwork asciiHost (.str "196.188.0.1") (Page.blank asciiHost)).requests =
      [{ url := "/api/v1/network/scan", method := "POST",
         headers := [("Content-Type", "application/json")],
         body := .json (.obj [("ip", .str "196.188.0.1")]) }] :=
  ⟨((scanNetwork_request_behaviour asciiHost (Page.blank asciiHost)).1 (.str "")
      (Or.inr (Or.inr rfl))).1,
   ((scanNetwork_request_behaviour asciiHost (Page.blank asciiHost)).2.1 "196.188.0.1"
      (by decide)).2⟩

/-! ## The score combiner -/

/-- The weighted sum is never negative. -/
theorem weightedSum_nonneg (indicators : List ThreatIndicator) :
    0 ≤ weightedSum indicators := by
  unfold weightedSum
  apply List.sum_nonneg
  intro x hx
  obtain ⟨i, _, rfl⟩ := List.mem_map.mp hx
  have hw : (0 : ℚ) ≤ severity_weight i.severity := by
    cases i.severity <;> simp [severity_weight]
  have hc : (0 : ℚ) ≤ (i.confidence : ℚ) / 100 := by positivity
  exact mul_nonneg hw hc

/-- C10: `combine` returns the weighted sum capped at 100, with weights 10, 35 and 70; for
every indicator list the score lies between 0 and 100; the tier is `high` from 70, `medium`
from 30 and `low` below, a boundary going to the higher tier; and the three examples of the
spec evaluate to `(0, low)`, `(70, high)` and `(70, high)`. -/
theorem combine_spec (indicators : List ThreatIndicator) :
    (combine indicators).1 = min 100
      (indicators.map fun i => severity_weight i.severity * ((i.confidence : ℚ) / 100)).sum ∧
    (severity_weight .low = 10 ∧ severity_weight .medium = 35 ∧ severity_weight .high = 70) ∧
    (0 ≤ (combine indicators).1 ∧ (combine indicators).1 ≤ 100) ∧
    ((combine indicators).2 = .high ↔ 70 ≤ (combine indicators).1) ∧
    ((combine indicators).2 = .medium ↔
      30 ≤ (combine indicators).1 ∧ (combine indicators).1 < 70) ∧
    ((combine indicators).2 = .low ↔ (combine indicators).1 < 30) ∧
    combine [] = (0, .low) ∧
    (∀ kind description, combine [⟨kind, .high, 100, description⟩] = (70, .high)) ∧
    (∀ kind description kind2 description2,
      combine [⟨kind, .medium, 100, description⟩, ⟨kind2, .medium, 100, description2⟩] =
        (70, .high)) := by
  refine ⟨rfl, ⟨rfl, rfl, rfl⟩, ⟨le_min (by norm_num) (weightedSum_nonneg indicators),
    min_le_left _ _⟩, ?_, ?_, ?_, ?_, ?_, ?_⟩
  · simp only [combine, riskLevelOf]
    split_ifs with h1 h2 <;> simp_all
  · simp only [combine, riskLevelOf]
    split_ifs with h1 h2
    · simp only [false_iff, not_and, not_lt, reduceCtorEq]
      exact fun _ => h1
    · simp only [true_iff]
      exact ⟨h2, lt_of_not_ge h1⟩
    · simp only [false_iff, not_and, reduceCtorEq]
      exact fun h => absurd h h2
  · simp only [combine, riskLevelOf]
    split_ifs with h1 h2
    · simp only [false_iff, not_lt, reduceCtorEq]
      linarith
    · simp only [false_iff, not_lt, reduceCtorEq]
      exact h2
    · simp only [true_iff]
      exact lt_of_not_ge h2
  · simp only [combine, weightedSum, riskLevelOf, List.map_nil, List.sum_nil]
    norm_num
  · intro kind description
    simp only [combine, weightedSum, riskLevelOf, severity_weight, List.map_cons,
      List.map_nil, List.sum_cons, List.sum_nil]
    norm_num
  · intro kind description kind2 description2
    simp only [combine, weightedSum, riskLevelOf, severity_weight, List.map_cons,
      List.map_nil, List.sum_cons, List.sum_nil]
    norm_num

/-! ## What the templates hold -/

set_option maxRecDepth 100000 in
/-- The report template holds the verdict box: the class on the `verdict-box` element and
the icon on the `i` element of the `verdict-icon` inside it. -/
theorem reportTemplate_verdict (typeUpper timestamp cls icon riskUpper confidence
    specificContent recommendationsHTML : String) :
    ∃ pre post : String,
      reportTemplate typeUpper timestamp cls icon riskUpper confidence specificContent
          recommendationsHTML =
        pre ++ "<div class=\"verdict-box " ++ cls ++
          "\">\n                    <div class=\"verdict-icon\">\n                        <i class=\"fas fa-" ++
          icon ++ "\"></i>" ++ post := by
  refine ⟨"\n        <div class=\"analysis-report\">\n            <div class=\"report-header\">\n                <div class=\"report-title\">Enhanced " ++ typeUpper ++ " Threat Analysis</div>\n                <div class=\"report-timestamp\">" ++ timestamp ++ "</div>\n            </div>\n            \n            <div class=\"report-section\">\n                <div class=\"section-header\">\n                    <i class=\"fas fa-shield-alt\"></i>\n                    <h3>Executive Summary</h3>\n                </div>\n                ",
    "\n                    </div>\n                    <div class=\"verdict-content\">\n                        <h3>" ++ riskUpper ++ " RISK LEVEL</h3>\n                        <p>Confidence: " ++ confidence ++ "%</p>\n                        <p>Analysis Type: " ++ typeUpper ++ "</p>\n                    </div>\n                </div>\n            </div>\n            \n            " ++ specificContent ++ "\n            \n            <div class=\"report-section\">\n                <div class=\"section-header\">\n                    <i class=\"fas fa-tools\"></i>\n                    <h3>Security Recommendations</h3>\n                </div>\n                <div class=\"recommendation-box\">\n                    " ++ recommendationsHTML ++ "\n                </div>\n            </div>\n        </div>\n    ", ?_⟩
  have h3 : "</div>\n            </div>\n            \n            <div class=\"report-section\">\n                <div class=\"section-header\">\n                    <i class=\"fas fa-shield-alt\"></i>\n                    <h3>Executive Summary</h3>\n                </div>\n                <div class=\"verdict-box " =
      "</div>\n            </div>\n            \n            <div class=\"report-section\">\n                <div class=\"section-header\">\n                    <i class=\"fas fa-shield-alt\"></i>\n                    <h3>Executive Summary</h3>\n                </div>\n                " ++ "<div class=\"verdict-box " := by
    decide
  have h5 : "\"></i>\n                    </div>\n                    <div class=\"verdict-content\">\n                        <h3>" =
      "\"></i>" ++ "\n                    </div>\n                    <div class=\"verdict-content\">\n                        <h3>" := by
    decide
  unfold reportTemplate
  rw [h3, h5]
  simp only [String.append_assoc]

set_option maxRecDepth 100000 in
/-- The URL content holds the heading `Threat Indicators (count)` and, right after the
header of that section, the text of the indicator section. -/
theorem urlContentTemplate_section (orgContextHTML count threats openphish urlhaus : String) :
    ∃ pre post : String,
      urlContentTemplate orgContextHTML count threats openphish urlhaus =
        pre ++ "<h3>Threat Indicators (" ++ count ++ ")</h3>\n            </div>\n            " ++
          threats ++ post := by
  refine ⟨"\n        <div class=\"report-section\">\n            <div class=\"section-header\">\n                <i class=\"fas fa-building\"></i>\n                <h3>Organizational Context</h3>\n            </div>\n            <div class=\"metadata-grid\">\n                " ++ orgContextHTML ++ "\n            </div>\n        </div>\n        \n        <div class=\"report-section\">\n            <div class=\"section-header\">\n                <i class=\"fas fa-exclamation-triangle\"></i>\n                ",
    "\n        </div>\n        \n        <div class=\"report-section\">\n            <div class=\"section-header\">\n                <i class=\"fas fa-globe\"></i>\n                <h3>International Intelligence</h3>\n            </div>\n            <div class=\"metadata-grid\">\n                <div class=\"metadata-item\">\n                    <div class=\"metadata-label\">OpenPhish</div>\n                    <div class=\"metadata-value\">" ++ openphish ++ "</div>\n                </div>\n                <div class=\"metadata-item\">\n                    <div class=\"metadata-label\">URLhaus</div>\n                    <div class=\"metadata-value\">" ++ urlhaus ++ "</div>\n                </div>\n            </div>\n        </div>\n    ", ?_⟩
  have h : "\n            </div>\n        </div>\n        \n        <div class=\"report-section\">\n            <div class=\"section-header\">\n                <i class=\"fas fa-exclamation-triangle\"></i>\n                <h3>Threat Indicators (" =
      "\n            </div>\n        </div>\n        \n        <div class=\"report-section\">\n            <div class=\"section-header\">\n                <i class=\"fas fa-exclamation-triangle\"></i>\n                " ++ "<h3>Threat Indicators (" := by
    decide
  unfold urlContentTemplate
  rw [h]
  simp only [String.append_assoc]

set_option maxRecDepth 100000 in
/-- The file content holds the heading `Threat Indicators (count)` and, right after the
header of that section, the text of the indicator section. -/
theorem fileContentTemplate_section (filename sizeKB file_type file_hash engines count threats : String) :
    ∃ pre post : String,
      fileContentTemplate filename sizeKB file_type file_hash engines count threats =
        pre ++ "<h3>Threat Indicators (" ++ count ++ ")</h3>\n            </div>\n            " ++
          threats ++ post := by
  refine ⟨"\n        <div class=\"report-section\">\n            <div class=\"section-header\">\n                <i class=\"fas fa-file\"></i>\n                <h3>File Information</h3>\n            </div>\n            <div class=\"metadata-grid\">\n                <div class=\"metadata-item\">\n                    <div class=\"metadata-label\">Filename</div>\n                    <div class=\"metadata-value\">" ++ filename ++ "</div>\n                </div>\n                <div class=\"metadata-item\">\n                    <div class=\"metadata-label\">File Size</div>\n                    <div class=\"metadata-value\">" ++ sizeKB ++ " KB</div>\n                </div>\n                <div class=\"metadata-item\">\n                    <div class=\"metadata-label\">File Type</div>\n                    <div class=\"metadata-value\">" ++ file_type ++ "</div>\n                </div>\n                <div class=\"metadata-item\">\n                    <div class=\"metadata-label\">SHA256 Hash</div>\n                    <div class=\"metadata-value\" style=\"font-size: 0.7rem;\">" ++ file_hash ++ "</div>\n                </div>\n            </div>\n        </div>\n        \n        <div class=\"report-section\">\n            <div class=\"section-header\">\n                <i class=\"fas fa-robot\"></i>\n                <h3>Analysis Engines</h3>\n            </div>\n            <div style=\"display: flex; gap: 1rem; flex-wrap: wrap;\">\n                " ++ engines ++ "\n            </div>\n        </div>\n        \n        <div class=\"report-section\">\n            <div class=\"section-header\">\n                <i class=\"fas fa-exclamation-triangle\"></i>\n                ",
    "\n        </div>\n    ", ?_⟩
  have h : "\n            </div>\n        </div>\n        \n        <div class=\"report-section\">\n            <div class=\"section-header\">\n                <i class=\"fas fa-exclamation-triangle\"></i>\n                <h3>Threat Indicators (" =
      "\n            </div>\n        </div>\n        \n        <div class=\"report-section\">\n            <div class=\"section-header\">\n                <i class=\"fas fa-exclamation-triangle\"></i>\n                " ++ "<h3>Threat Indicators (" := by
    decide
  unfold fileContentTemplate
  rw [h]
  simp only [String.append_assoc]

set_option maxRecDepth 100000 in
/-- A block of the URL report opens with a `result-item` element of the given class. -/
theorem urlIndicatorTemplate_class (cls icon typeUpper severityUpper description confidence : String) :
    ∃ rest : String,
      urlIndicatorTemplate cls icon typeUpper severityUpper description confidence =
        "\n            <div class=\"result-item " ++ cls ++ "\">" ++ rest := by
  refine ⟨"\n                <div class=\"result-icon\">\n                    <i class=\"fas fa-" ++ icon ++ "\"></i>\n                </div>\n                <div>\n                    <h4>" ++ typeUpper ++ " - " ++ severityUpper ++ " severity</h4>\n                    <p>" ++ description ++ "</p>\n                    <small>Confidence: " ++ confidence ++ "%</small>\n                </div>\n            </div>\n        ", ?_⟩
  have h : "\">\n                <div class=\"result-icon\">\n                    <i class=\"fas fa-" =
      "\">" ++ "\n                <div class=\"result-icon\">\n                    <i class=\"fas fa-" := by
    decide
  unfold urlIndicatorTemplate
  rw [h]
  simp only [String.append_assoc]

set_option maxRecDepth 100000 in
/-- A block of the file report opens with a `result-item` element of the given class. -/
theorem fileIndicatorTemplate_class (cls icon typeUpper description confidence : String) :
    ∃ rest : String,
      fileIndicatorTemplate cls icon typeUpper description confidence =
        "\n            <div class=\"result-item " ++ cls ++ "\">" ++ rest := by
  refine ⟨"\n                <div class=\"result-icon\">\n                    <i class=\"fas fa-" ++ icon ++ "\"></i>\n                </div>\n                <div>\n                    <h4>" ++ typeUpper ++ "</h4>\n                    <p>" ++ description ++ "</p>\n                    <small>Confidence: " ++ confidence ++ "%</small>\n                </div>\n            </div>\n        ", ?_⟩
  have h : "\">\n                <div class=\"result-icon\">\n                    <i class=\"fas fa-" =
      "\">" ++ "\n                <div class=\"result-icon\">\n                    <i class=\"fas fa-" := by
    decide
  unfold fileIndicatorTemplate
  rw [h]
  simp only [String.append_assoc]

/-! ## The verdict box -/

/-- The shape of every report `displayEnhancedResults` writes for a response without a
truthy `error`: the template of the report, filled with the class and the icon that
`risk_level` selects. -/
theorem displayEnhancedResults_report_of_ok (host : Host) (type : String)
    (fields : List (String × JSVal))
    (herr : ((fields.lookup "error").getD .undefined).truthy = false) (html : String)
    (h : displayEnhancedResults host type (.obj fields) = .ok html) :
    ∃ s confidence specificContent recs,
      (fields.lookup "risk_level").getD .undefined = .str s ∧
      html = reportTemplate (host.toUpperCase type) host.localeTimestamp
        (threatClass (.str s)) (verdictIcon (.str s)) (host.toUpperCase s) confidence
        specificContent recs := by
  cases hlv : (fields.lookup "risk_level").getD .undefined with
  | str s =>
    have key : ∀ r : Except JSError String,
        (r >>= fun specificContent =>
          JSVal.callToUpperCase host (.str s) >>= fun riskUpper =>
            JSVal.toStr host ((fields.lookup "confidence").getD .undefined) >>=
              fun confidence =>
                generateRecommendations (.obj fields) type >>= fun recs =>
                  Except.ok (reportTemplate (host.toUpperCase type) host.localeTimestamp
                    (threatClass (.str s)) (verdictIcon (.str s))
                    riskUpper confidence specificContent recs)) = .ok html →
        ∃ confidence specificContent recs,
          html = reportTemplate (host.toUpperCase type) host.localeTimestamp
            (threatClass (.str s)) (verdictIcon (.str s)) (host.toUpperCase s) confidence
            specificContent recs := by
      intro r hr
      cases r with
      | error e => simp [error_bind] at hr
      | ok content =>
        rw [ok_bind] at hr
        simp only [JSVal.callToUpperCase, ok_bind] at hr
        cases hc : JSVal.toStr host ((fields.lookup "confidence").getD .undefined) with
        | error e => simp [hc, error_bind] at hr
        | ok confidence =>
          rw [hc, ok_bind] at hr
          cases hg : generateRecommendations (.obj fields) type with
          | error e => simp [hg, error_bind] at hr
          | ok recs =>
            rw [hg, ok_bind] at hr
            exact ⟨confidence, content, recs, (Except.ok.inj hr).symm⟩
    simp only [displayEnhancedResults, get_obj, ok_bind, herr, Bool.false_eq_true, if_false,
      pure_eq_ok, hlv] at h
    refine ⟨s, ?_⟩
    split_ifs at h
    · obtain ⟨c, sc, r, hh⟩ := key _ h
      exact ⟨c, sc, r, rfl, hh⟩
    · obtain ⟨c, sc, r, hh⟩ := key _ h
      exact ⟨c, sc, r, rfl, hh⟩
    · obtain ⟨c, sc, r, hh⟩ := key _ h
      exact ⟨c, sc, r, rfl, hh⟩
    · obtain ⟨c, sc, r, hh⟩ := key (Except.ok "") h
      exact ⟨c, sc, r, rfl, hh⟩
  | undefined =>
    rw [displayEnhancedResults_raises host type fields herr (by rw [hlv]; rfl)] at h
    cases h
  | null =>
    rw [displayEnhancedResults_raises host type fields herr (by rw [hlv]; rfl)] at h
    cases h
  | bool b =>
    rw [displayEnhancedResults_raises host type fields herr (by rw [hlv]; rfl)] at h
    cases h
  | num q =>
    rw [displayEnhancedResults_raises host type fields herr (by rw [hlv]; rfl)] at h
    cases h
  | arr items =>
    rw [displayEnhancedResults_raises host type fields herr (by rw [hlv]; rfl)] at h
    cases h
  | obj fs =>
    rw [displayEnhancedResults_raises host type fields herr (by rw [hlv]; rfl)] at h
    cases h

/-- The class and the icon of the verdict box, as functions of a string `risk_level`. -/
theorem threatClass_verdictIcon_str (s : String) :
    threatClass (.str s) =
      (if s = "high" then "result-malicious"
       else if s = "medium" then "result-suspicious" else "result-clean") ∧
    verdictIcon (.str s) =
      (if s = "high" then "skull-crossbones"
       else if s = "medium" then "exclamation-triangle" else "check-circle") := by
  simp [threatClass, verdictIcon, JSVal.strictEqStr]

/-- C11: for a response without a truthy `error`, a response of the success shape is
rendered, and every report that is rendered shows one verdict chosen by the string
`risk_level` alone, compared case-sensitively: the written HTML holds the `verdict-box`
element with class `result-malicious` and, inside it, the icon `skull-crossbones` for
`high`; `result-suspicious` with `exclamation-triangle` for `medium`; `result-clean` with
`check-circle` for every other string.  The HTML is the report template filled with that
class and icon; one comparison chain selects both, so they belong to the same tier. -/
theorem verdict_by_risk_level (host : Host) (type : String)
    (fields : List (String × JSVal))
    (herr : ((fields.lookup "error").getD .undefined).truthy = false) :
    (Contract.successShape type (.obj fields) = true →
      ∃ html, displayEnhancedResults host type (.obj fields) = .ok html) ∧
    (∀ html, displayEnhancedResults host type (.obj fields) = .ok html →
      ∃ s confidence specificContent recs pre post,
        (fields.lookup "risk_level").getD .undefined = .str s ∧
        html = reportTemplate (host.toUpperCase type) host.localeTimestamp
          (if s = "high" then "result-malicious"
           else if s = "medium" then "result-suspicious" else "result-clean")
          (if s = "high" then "skull-crossbones"
           else if s = "medium" then "exclamation-triangle" else "check-circle")
          (host.toUpperCase s) confidence specificContent recs ∧
        html = pre ++ "<div class=\"verdict-box " ++
          (if s = "high" then "result-malicious"
           else if s = "medium" then "result-suspicious" else "result-clean") ++
          "\">\n                    <div class=\"verdict-icon\">\n                        <i class=\"fas fa-" ++
          (if s = "high" then "skull-crossbones"
           else if s = "medium" then "exclamation-triangle" else "check-circle") ++
          "\"></i>" ++ post) ∧
    (∀ s : String,
      (threatClass (.str s), verdictIcon (.str s)) = ("result-malicious", "skull-crossbones") ∧
        s = "high" ∨
      (threatClass (.str s), verdictIcon (.str s)) =
          ("result-suspicious", "exclamation-triangle") ∧ s = "medium" ∨
      (threatClass (.str s), verdictIcon (.str s)) = ("result-clean", "check-circle") ∧
        s ≠ "high" ∧ s ≠ "medium") := by
  refine ⟨displayEnhancedResults_returns host type (.obj fields), ?_, ?_⟩
  · intro html h
    obtain ⟨s, c, sc, r, hs, hh⟩ :=
      displayEnhancedResults_report_of_ok host type fields herr html h
    rw [(threatClass_verdictIcon_str s).1, (threatClass_verdictIcon_str s).2] at hh
    obtain ⟨pre, post, hp⟩ := reportTemplate_verdict (host.toUpperCase type)
      host.localeTimestamp
      (if s = "high" then "result-malicious"
       else if s = "medium" then "result-suspicious" else "result-clean")
      (if s = "high" then "skull-crossbones"
       else if s = "medium" then "exclamation-triangle" else "check-circle")
      (host.toUpperCase s) c sc r
    exact ⟨s, c, sc, r, pre, post, hs, hh, hh.trans hp⟩
  · intro s
    rw [(threatClass_verdictIcon_str s).1, (threatClass_verdictIcon_str s).2]
    by_cases h1 : s = "high"
    · exact Or.inl ⟨by simp [h1], h1⟩
    · by_cases h2 : s = "medium"
      · exact Or.inr (Or.inl ⟨by simp [h2], h2⟩)
      · exact Or.inr (Or.inr ⟨by simp [h1, h2], h1, h2⟩)

/-- C11 at an IP response whose `risk_level` is spelled `High`: it is rendered, and the
HTML holds the verdict box of a clean verdict. -/
theorem verdict_by_risk_level_witness :
    ((([("risk_level", JSVal.str "High"), ("confidence", JSVal.num 80)].lookup "error").getD
      JSVal.undefined).truthy = false) ∧
    ∃ html pre post,
      displayEnhancedResults asciiHost "ip"
        (.obj [("risk_level", .str "High"), ("confidence", .num 80)]) = .ok html ∧
      html = pre ++ "<div class=\"verdict-box " ++ "result-clean" ++
        "\">\n                    <div class=\"verdict-icon\">\n                        <i class=\"fas fa-" ++
        "check-circle" ++ "\"></i>" ++ post := by
  refine ⟨rfl, ?_⟩
  have w := verdict_by_risk_level asciiHost "ip"
    [("risk_level", .str "High"), ("confidence", .num 80)] rfl
  obtain ⟨html, h⟩ := w.1 (by decide)
  obtain ⟨s, c, sc, r, pre, post, hs, _, hp⟩ := w.2.1 html h
  have hs2 : s = "High" := by
    have : JSVal.str "High" = JSVal.str s := hs
    exact (JSVal.str.inj this).symm
  subst hs2
  exact ⟨html, pre, post, h, hp⟩

/-! ## The scan tally -/

/-- A call `analyzeThreat` turns down: an alert, and neither `threatStats` nor the list of
requests changes. -/
theorem analyzeThreat_rejected (host : Host) (type : String) (p : Page)
    (h : (type = "url" ∧ trim p.urlInput = "") ∨ (type = "ip" ∧ trim p.ipInput = "") ∨
      (type = "file" ∧ (p.currentFile = none ∨ ∃ f, p.currentFile = some f ∧ f.name = "")) ∨
      (type ≠ "url" ∧ type ≠ "ip" ∧ type ≠ "file")) :
    (analyzeThreat host type p).threatStats = p.threatStats ∧
    (analyzeThreat host type p).requests = p.requests := by
  rcases h with ⟨ht, h⟩ | ⟨ht, h⟩ | ⟨ht, h | ⟨f, hf, h⟩⟩ | ⟨h1, h2, h3⟩
  · subst ht
    simp [analyzeThreat, h, Page.alert]
  · subst ht
    simp [analyzeThreat, h, Page.alert]
  · subst ht
    simp [analyzeThreat, h, Page.alert]
  · subst ht
    simp [analyzeThreat, hf, h, Page.alert]
  · simp [analyzeThreat, h1, h2, h3, Page.alert]

/-- A call `analyzeThreat` accepts: `totalScans` goes up by one, the other fields of
`threatStats` stay, and one request is issued. -/
theorem analyzeThreat_accepted (host : Host) (type : String) (p : Page)
    (h : (type = "url" ∧ trim p.urlInput ≠ "") ∨ (type = "ip" ∧ trim p.ipInput ≠ "") ∨
      (type = "file" ∧ ∃ f, p.currentFile = some f ∧ f.name ≠ "")) :
    (analyzeThreat host type p).threatStats =
      { p.threatStats with totalScans := p.threatStats.totalScans + 1 } ∧
    ∃ r, (analyzeThreat host type p).requests = p.requests ++ [r] := by
  rcases h with ⟨ht, h⟩ | ⟨ht, h⟩ | ⟨ht, f, hf, h⟩
  · subst ht
    obtain ⟨text, htext⟩ :=
      showEnhancedAnalysisProgress_ok host "url" (trim p.urlInput) (Or.inl rfl)
    simp [analyzeThreat, h, htext, Page.fetch, Page.setHTML, updateThreatStats]
  · subst ht
    obtain ⟨text, htext⟩ :=
      showEnhancedAnalysisProgress_ok host "ip" (trim p.ipInput) (Or.inr (Or.inl rfl))
    simp [analyzeThreat, h, htext, Page.fetch, Page.setHTML, updateThreatStats]
  · subst ht
    obtain ⟨text, htext⟩ :=
      showEnhancedAnalysisProgress_ok host "file" f.name (Or.inr (Or.inr rfl))
    simp [analyzeThreat, hf, h, htext, Page.fetch, Page.setHTML, updateThreatStats,
      uploadFileForAnalysis]

/-- Every call is of one of the two kinds. -/
theorem analyzeThreat_rejected_or_accepted (type : String) (p : Page) :
    ((type = "url" ∧ trim p.urlInput = "") ∨ (type = "ip" ∧ trim p.ipInput = "") ∨
      (type = "file" ∧ (p.currentFile = none ∨ ∃ f, p.currentFile = some f ∧ f.name = "")) ∨
      (type ≠ "url" ∧ type ≠ "ip" ∧ type ≠ "file")) ∨
    ((type = "url" ∧ trim p.urlInput ≠ "") ∨ (type = "ip" ∧ trim p.ipInput ≠ "") ∨
      (type = "file" ∧ ∃ f, p.currentFile = some f ∧ f.name ≠ "")) := by
  by_cases h1 : type = "url"
  · by_cases h : trim p.urlInput = ""
    · exact Or.inl (Or.inl ⟨h1, h⟩)
    · exact Or.inr (Or.inl ⟨h1, h⟩)
  · by_cases h2 : type = "ip"
    · by_cases h : trim p.ipInput = ""
      · exact Or.inl (Or.inr (Or.inl ⟨h2, h⟩))
      · exact Or.inr (Or.inr (Or.inl ⟨h2, h⟩))
    · by_cases h3 : type = "file"
      · cases hf : p.currentFile with
        | none => exact Or.inl (Or.inr (Or.inr (Or.inl ⟨h3, Or.inl rfl⟩)))
        | some f =>
          by_cases h : f.name = ""
          · exact Or.inl (Or.inr (Or.inr (Or.inl ⟨h3, Or.inr ⟨f, rfl, h⟩⟩)))
          · exact Or.inr (Or.inr (Or.inr ⟨h3, f, rfl, h⟩))
      · exact Or.inl (Or.inr (Or.inr (Or.inr ⟨h1, h2, h3⟩)))

/-- C12: `analyzeThreat` updates the scan tally exactly when it accepts the input.  If the
type is `url` or `ip` and the trimmed input is empty, or the type is `file` and no file is
selected or its name is empty, or the type is none of the three, `threatStats` and the list
of requests are unchanged; in every other case `totalScans` is one more, no other field of
`threatStats` has changed when the call ends, and one request has been issued. -/
theorem analyzeThreat_tally (host : Host) (type : String) (p : Page) :
    (((type = "url" ∧ trim p.urlInput = "") ∨ (type = "ip" ∧ trim p.ipInput = "") ∨
      (type = "file" ∧ (p.currentFile = none ∨ ∃ f, p.currentFile = some f ∧ f.name = "")) ∨
      (type ≠ "url" ∧ type ≠ "ip" ∧ type ≠ "file")) →
      (analyzeThreat host type p).threatStats = p.threatStats ∧
      (analyzeThreat host type p).requests = p.requests) ∧
    (¬((type = "url" ∧ trim p.urlInput = "") ∨ (type = "ip" ∧ trim p.ipInput = "") ∨
      (type = "file" ∧ (p.currentFile = none ∨ ∃ f, p.currentFile = some f ∧ f.name = "")) ∨
      (type ≠ "url" ∧ type ≠ "ip" ∧ type ≠ "file")) →
      (analyzeThreat host type p).threatStats.totalScans = p.threatStats.totalScans + 1 ∧
      (analyzeThreat host type p).threatStats.threatsDetected = p.threatStats.threatsDetected ∧
      (analyzeThreat host type p).threatStats.ethiopianOrgs = p.threatStats.ethiopianOrgs ∧
      (analyzeThreat host type p).threatStats.confidenceRate = p.threatStats.confidenceRate ∧
      ∃ r, (analyzeThreat host type p).requests = p.requests ++ [r]) := by
  refine ⟨analyzeThreat_rejected host type p, fun hn => ?_⟩
  rcases analyzeThreat_rejected_or_accepted type p with h | h
  · exact absurd h hn
  · obtain ⟨hs, hr⟩ := analyzeThreat_accepted host type p h
    rw [hs]
    exact ⟨rfl, rfl, rfl, rfl, hr⟩

/-- C12 on a blank page: white space only in the URL field is turned down, and an
address in the IP field is counted. -/
theorem analyzeThreat_tally_witness :
    (analyzeThreat asciiHost "url"
        { Page.blank asciiHost with urlInput := " \t\n " }).threatStats =
      ThreatStats.initial ∧
    (analyzeThreat asciiHost "url"
        { Page.blank asciiHost with urlInput := " \t\n " }).requests = [] ∧
    (analyzeThreat asciiHost "ip"
        { Page.blank asciiHost with ipInput := "196.188.0.1" }).threatStats.totalScans = 1 :=
  ⟨((analyzeThreat_tally asciiHost "url"
      { Page.blank asciiHost with urlInput := " \t\n " }).1
      (Or.inl ⟨rfl, by decide⟩)).1,
   ((analyzeThreat_tally asciiHost "url"
      { Page.blank asciiHost with urlInput := " \t\n " }).1
      (Or.inl ⟨rfl, by decide⟩)).2,
   ((analyzeThreat_tally asciiHost "ip"
      { Page.blank asciiHost with ipInput := "196.188.0.1" }).2
      (by
        rintro (⟨h, _⟩ | ⟨_, h⟩ | ⟨h, _⟩ | ⟨_, h, _⟩)
        · exact absurd h (by decide)
        · exact absurd h (by decide)
        · exact absurd h (by decide)
        · exact h rfl)).1⟩

/-! ## The tally over a run of the dashboard -/

/-- The callback of `analyzeThreat` leaves `threatStats` as it is or raises
`threatsDetected` by one. -/
theorem analyzeThreatThen_threatStats (host : Host) (type : String) (c : Container)
    (data : JSVal) (p : Page) :
    (analyzeThreatThen host type c data p).threatStats = p.threatStats ∨
    (analyzeThreatThen host type c data p).threatStats =
      { p.threatStats with threatsDetected := p.threatStats.threatsDetected + 1 } := by
  unfold analyzeThreatThen
  cases displayEnhancedResults host type data with
  | error e => exact Or.inl rfl
  | ok text =>
    cases data.get "risk_level" with
    | error e => exact Or.inl rfl
    | ok risk_level =>
      by_cases h : risk_level.strictNeStr "low" = true
      · simp only [h, if_true]
        exact Or.inr rfl
      · simp only [h]
        exact Or.inl rfl

/-- The callback of `uploadFileForAnalysis` does the same. -/
theorem uploadFileForAnalysisThen_threatStats (host : Host) (c : Container)
    (data : JSVal) (p : Page) :
    (uploadFileForAnalysisThen host c data p).threatStats = p.threatStats ∨
    (uploadFileForAnalysisThen host c data p).threatStats =
      { p.threatStats with threatsDetected := p.threatStats.threatsDetected + 1 } := by
  unfold uploadFileForAnalysisThen
  cases displayEnhancedResults host "file" data with
  | error e => exact Or.inl rfl
  | ok text =>
    cases data.get "risk_level" with
    | error e => exact Or.inl rfl
    | ok risk_level =>
      by_cases h : risk_level.strictNeStr "low" = true
      · simp only [h, if_true]
        exact Or.inr rfl
      · simp only [h]
        exact Or.inl rfl

/-- The invariant of the dashboard: every detected threat and every pending call is
covered by a counted scan, and the two constant fields keep their initial values. -/
theorem reachable_invariant (host : Host) (d : Dashboard) (h : Reachable host d) :
    d.page.threatStats.threatsDetected + d.pending.length ≤ d.page.threatStats.totalScans ∧
    d.page.threatStats.ethiopianOrgs = 12 ∧
    d.page.threatStats.confidenceRate = "95%" := by
  induction h with
  | initial => exact ⟨Nat.le_refl _, rfl, rfl⟩
  | step d e _ ih =>
    obtain ⟨hle, horg, hrate⟩ := ih
    cases e with
    | edit urlInput ipInput currentFile => exact ⟨hle, horg, hrate⟩
    | analyze type =>
      simp only [Dashboard.step]
      rcases analyzeThreat_rejected_or_accepted type d.page with hr | ha
      · obtain ⟨hs, hq⟩ := analyzeThreat_rejected host type d.page hr
        rw [hs, hq]
        simp only [Nat.self_eq_add_right, one_ne_zero, if_false]
        exact ⟨hle, horg, hrate⟩
      · obtain ⟨hs, r, hq⟩ := analyzeThreat_accepted host type d.page ha
        rw [hs, hq]
        simp only [List.length_append, List.length_singleton, if_true]
        exact ⟨by omega, horg, hrate⟩
    | response i data =>
      simp only [Dashboard.step]
      cases hp : d.pending[i]? with
      | none => exact ⟨hle, horg, hrate⟩
      | some type =>
        obtain ⟨hi, _⟩ := List.getElem?_eq_some_iff.mp hp
        have hlen := List.length_eraseIdx_of_lt hi
        simp only
        by_cases hf : type = "file"
        · simp only [hf, if_true]
          rcases uploadFileForAnalysisThen_threatStats host .fileResults data d.page
            with hs | hs
          · rw [hs]
            exact ⟨by omega, horg, hrate⟩
          · rw [hs]
            exact ⟨by simp only; omega, horg, hrate⟩
        · simp only [hf, if_false]
          rcases analyzeThreatThen_threatStats host type (resultsContainerOf type) data d.page
            with hs | hs
          · rw [hs]
            exact ⟨by omega, horg, hrate⟩
          · rw [hs]
            exact ⟨by simp only; omega, horg, hrate⟩
    | failure i message =>
      simp only [Dashboard.step]
      cases hp : d.pending[i]? with
      | none => exact ⟨hle, horg, hrate⟩
      | some type =>
        have hs : (analysisCatch (resultsContainerOf type) message d.page).threatStats =
            d.page.threatStats := rfl
        simp only [hs]
        exact ⟨Nat.le_trans (Nat.add_le_add_left (List.length_eraseIdx_le _ _) _) hle,
          horg, hrate⟩

/-- C13: in every state the dashboard can reach from the initial `threatStats` through
edits of the inputs, calls of `analyzeThreat`, responses for pending calls and failed
requests, `threatsDetected` is at most `totalScans`, `ethiopianOrgs` is 12 and
`confidenceRate` is `95%`. -/
theorem threatStats_invariant (host : Host) (d : Dashboard) (h : Reachable host d) :
    d.page.threatStats.threatsDetected ≤ d.page.threatStats.totalScans ∧
    d.page.threatStats.ethiopianOrgs = 12 ∧
    d.page.threatStats.confidenceRate = "95%" := by
  obtain ⟨hle, horg, hrate⟩ := reachable_invariant host d h
  exact ⟨Nat.le_trans (Nat.le_add_right _ _) hle, horg, hrate⟩

/-- C13 after one run: a URL is entered, analysed, and the response reports a high risk. -/
theorem threatStats_invariant_witness :
    Reachable asciiHost
      ((((Dashboard.initial asciiHost).step asciiHost
          (.edit "http://cbe.com.et" "" none)).step asciiHost
          (.analyze "url")).step asciiHost
          (.response 0 (.obj [("risk_level", .str "high")]))) ∧
    (((Dashboard.initial asciiHost).step asciiHost
        (.edit "http://cbe.com.et" "" none)).step asciiHost
        (.analyze "url")).page.threatStats.totalScans = 1 ∧
    ((((Dashboard.initial asciiHost).step asciiHost
          (.edit "http://cbe.com.et" "" none)).step asciiHost
          (.analyze "url")).step asciiHost
          (.response 0 (.obj [("risk_level", .str "high")]))).page.threatStats.threatsDetected ≤
      ((((Dashboard.initial asciiHost).step asciiHost
          (.edit "http://cbe.com.et" "" none)).step asciiHost
          (.analyze "url")).step asciiHost
          (.response 0 (.obj [("risk_level", .str "high")]))).page.threatStats.totalScans :=
  ⟨.step _ _ (.step _ _ (.step _ _ .initial)),
   by decide,
   (threatStats_invariant asciiHost _ (.step _ _ (.step _ _ (.step _ _ .initial)))).1⟩

/-! ## Which markers decide the organization type -/

/-- The conditional of `determineOrganizationType`, with list membership for the array
tests. -/
theorem determineOrganizationType_eq (xs : List String) :
    determineOrganizationType xs =
      if "cbe" ∈ xs ∨ "dashen" ∈ xs ∨ "awash" ∈ xs then "financial"
      else if "gov.et" ∈ xs ∨ ".et" ∈ xs then "government"
      else if "ethiotelecom" ∈ xs then "telecom"
      else if "ethiopianairlines" ∈ xs then "infrastructure"
      else "unknown" := by
  simp [determineOrganizationType, or_assoc]

/-- The type is `unknown` exactly when none of the seven deciding markers is present. -/
theorem determineOrganizationType_eq_unknown_iff (xs : List String) :
    determineOrganizationType xs = "unknown" ↔
      "cbe" ∉ xs ∧ "dashen" ∉ xs ∧ "awash" ∉ xs ∧ "gov.et" ∉ xs ∧ ".et" ∉ xs ∧
      "ethiotelecom" ∉ xs ∧ "ethiopianairlines" ∉ xs := by
  rw [determineOrganizationType_eq]
  split_ifs with h1 h2 h3 h4
  · simp only [not_or] at *
    constructor
    · intro h; exact absurd h (by decide)
    · rintro ⟨a, b, c, _⟩; rcases h1 with h | h | h
      · exact absurd h a
      · exact absurd h b
      · exact absurd h c
  · constructor
    · intro h; exact absurd h (by decide)
    · rintro ⟨_, _, _, d, e, _⟩; rcases h2 with h | h
      · exact absurd h d
      · exact absurd h e
  · constructor
    · intro h; exact absurd h (by decide)
    · rintro ⟨_, _, _, _, _, f, _⟩; exact absurd h3 f
  · constructor
    · intro h; exact absurd h (by decide)
    · rintro ⟨_, _, _, _, _, _, g⟩; exact absurd h4 g
  · simp only [not_or] at h1 h2
    exact ⟨fun _ => ⟨h1.1, h1.2.1, h1.2.2, h2.1, h2.2, h3, h4⟩, fun _ => rfl⟩

/-- The type is `government` exactly when no financial marker is present and `gov.et` or
`.et` is. -/
theorem determineOrganizationType_eq_government_iff (xs : List String) :
    determineOrganizationType xs = "government" ↔
      ¬("cbe" ∈ xs ∨ "dashen" ∈ xs ∨ "awash" ∈ xs) ∧ ("gov.et" ∈ xs ∨ ".et" ∈ xs) := by
  rw [determineOrganizationType_eq]
  split_ifs with h1 h2 h3 h4
  · exact ⟨fun h => absurd h (by decide), fun h => absurd h1 h.1⟩
  · exact ⟨fun _ => ⟨h1, h2⟩, fun _ => rfl⟩
  · exact ⟨fun h => absurd h (by decide), fun h => absurd h.2 h2⟩
  · exact ⟨fun h => absurd h (by decide), fun h => absurd h.2 h2⟩
  · exact ⟨fun h => absurd h (by decide), fun h => absurd h.2 h2⟩

/-- A marker of the list is matched exactly when the lower-cased target contains it. -/
theorem marker_mem_matched (host : Host) (target m : String) (hm : m ∈ ethiopianIndicators) :
    m ∈ (checkEthiopianContext host target).matchedIndicators ↔
      m.data <:+: (host.toLowerCase target).data := by
  rw [mem_matchedIndicators]
  exact ⟨fun h => h.2, fun h => ⟨hm, h⟩⟩

/-- A target that contains `gov.et` or `com.et` contains `.et`. -/
theorem dot_et_of_gov_or_com (l : List Char)
    (h : "gov.et".data <:+: l ∨ "com.et".data <:+: l) : ".et".data <:+: l := by
  rcases h with h | h
  · exact List.IsInfix.trans (by decide) h
  · exact List.IsInfix.trans (by decide) h

/-- A target that contains `ethiopianairlines` contains `ethiopia`. -/
theorem ethiopia_of_airlines (l : List Char)
    (h : "ethiopianairlines".data <:+: l) : "ethiopia".data <:+: l :=
  List.IsInfix.trans (by decide) h

/-- The list of matches when `ethiopia` is the only marker that can still occur. -/
theorem matchedIndicators_of_only_ethiopia (host : Host) (target : String)
    (h1 : includes (host.toLowerCase target) ".et" = false)
    (h3 : includes (host.toLowerCase target) "cbe" = false)
    (h4 : includes (host.toLowerCase target) "dashen" = false)
    (h5 : includes (host.toLowerCase target) "awash" = false)
    (h6 : includes (host.toLowerCase target) "ethiotelecom" = false)
    (h7 : includes (host.toLowerCase target) "ethiopianairlines" = false)
    (h8 : includes (host.toLowerCase target) "gov.et" = false)
    (h9 : includes (host.toLowerCase target) "com.et" = false) :
    (checkEthiopianContext host target).matchedIndicators =
      if includes (host.toLowerCase target) "ethiopia" = true then ["ethiopia"] else [] := by
  simp only [checkEthiopianContext, ethiopianIndicators, List.filter, h1, h3, h4, h5, h6, h7,
    h8, h9]
  cases includes (host.toLowerCase target) "ethiopia" <;> rfl

/-- A marker that the target does not contain is not searched for successfully. -/
theorem includes_eq_false_of_not_mem (host : Host) (target m : String)
    (hm : m ∈ ethiopianIndicators)
    (h : m ∉ (checkEthiopianContext host target).matchedIndicators) :
    includes (host.toLowerCase target) m = false := by
  rw [marker_mem_matched host target m hm, ← includes_iff] at h
  simpa using h

/-- C14: `isEthiopian` is `false` exactly when no marker of the list is a substring of the
lower-cased target, and then `matchedIndicators` is empty and `organizationType` is
`unknown`; `isEthiopian` is `true` together with `organizationType` `unknown` exactly when
`matchedIndicators` is the one-element list `ethiopia`, which is the case exactly when
`ethiopia` is the only marker that occurs in the lower-cased target. -/
theorem checkEthiopianContext_unknown (host : Host) (target : String) :
    ((checkEthiopianContext host target).isEthiopian = false ↔
      ∀ m ∈ ethiopianIndicators, ¬ m.data <:+: (host.toLowerCase target).data) ∧
    ((checkEthiopianContext host target).isEthiopian = false →
      (checkEthiopianContext host target).matchedIndicators = [] ∧
      (checkEthiopianContext host target).organizationType = "unknown") ∧
    (((checkEthiopianContext host target).isEthiopian = true ∧
        (checkEthiopianContext host target).organizationType = "unknown") ↔
      (checkEthiopianContext host target).matchedIndicators = ["ethiopia"]) ∧
    ((checkEthiopianContext host target).matchedIndicators = ["ethiopia"] ↔
      ∀ m ∈ ethiopianIndicators,
        (m.data <:+: (host.toLowerCase target).data ↔ m = "ethiopia")) := by
  have hEth : (checkEthiopianContext host target).isEthiopian =
      decide ((checkEthiopianContext host target).matchedIndicators.length > 0) := rfl
  have hType : (checkEthiopianContext host target).organizationType =
      determineOrganizationType (checkEthiopianContext host target).matchedIndicators := rfl
  have hnil : (checkEthiopianContext host target).isEthiopian = false ↔
      (checkEthiopianContext host target).matchedIndicators = [] := by
    rw [hEth]
    cases (checkEthiopianContext host target).matchedIndicators <;> simp
  refine ⟨?_, ?_, ?_, ?_⟩
  · rw [hnil]
    constructor
    · intro h m hm hin
      have := (marker_mem_matched host target m hm).mpr hin
      rw [h] at this
      exact absurd this (List.not_mem_nil m)
    · intro h
      apply List.eq_nil_iff_forall_not_mem.mpr
      intro m hm
      have hml := ((mem_matchedIndicators host target m).mp hm).1
      exact h m hml ((marker_mem_matched host target m hml).mp hm)
  · intro h
    have hm := hnil.mp h
    refine ⟨hm, ?_⟩
    rw [hType, hm]
    decide
  · constructor
    · rintro ⟨he, ht⟩
      rw [hType, determineOrganizationType_eq_unknown_iff] at ht
      obtain ⟨c3, c4, c5, c8, c1, c6, c7⟩ := ht
      have c9 : "com.et" ∉ (checkEthiopianContext host target).matchedIndicators := by
        intro h
        have hin := (marker_mem_matched host target "com.et" (by decide)).mp h
        exact c1 ((marker_mem_matched host target ".et" (by decide)).mpr
          (dot_et_of_gov_or_com _ (Or.inr hin)))
      have hM := matchedIndicators_of_only_ethiopia host target
        (includes_eq_false_of_not_mem host target _ (by decide) c1)
        (includes_eq_false_of_not_mem host target _ (by decide) c3)
        (includes_eq_false_of_not_mem host target _ (by decide) c4)
        (includes_eq_false_of_not_mem host target _ (by decide) c5)
        (includes_eq_false_of_not_mem host target _ (by decide) c6)
        (includes_eq_false_of_not_mem host target _ (by decide) c7)
        (includes_eq_false_of_not_mem host target _ (by decide) c8)
        (includes_eq_false_of_not_mem host target _ (by decide) c9)
      by_cases hb : includes (host.toLowerCase target) "ethiopia" = true
      · rw [hM, if_pos hb]
      · rw [if_neg hb] at hM
        rw [hnil.mpr hM] at he
        exact absurd he (by decide)
    · intro h
      rw [hEth, hType, h]
      exact ⟨by decide, by decide⟩
  · constructor
    · intro h m hm
      rw [← marker_mem_matched host target m hm, h, List.mem_singleton]
    · intro h
      have hf : ∀ m, m ∈ ethiopianIndicators → m ≠ "ethiopia" →
          includes (host.toLowerCase target) m = false := by
        intro m hm hne
        have hn : ¬ m.data <:+: (host.toLowerCase target).data :=
          fun hin => hne ((h m hm).mp hin)
        rw [← includes_iff] at hn
        simpa using hn
      have ht : includes (host.toLowerCase target) "ethiopia" = true :=
        (includes_iff _ _).mpr ((h "ethiopia" (by decide)).mpr rfl)
      rw [matchedIndicators_of_only_ethiopia host target
        (hf _ (by decide) (by decide)) (hf _ (by decide) (by decide))
        (hf _ (by decide) (by decide)) (hf _ (by decide) (by decide))
        (hf _ (by decide) (by decide)) (hf _ (by decide) (by decide))
        (hf _ (by decide) (by decide)) (hf _ (by decide) (by decide)), if_pos ht]

/-- C15: in a result of `checkEthiopianContext`, `gov.et` or `com.et` among the matches
brings `.et`, and `ethiopianairlines` brings `ethiopia`; so the type is `government`
exactly when the lower-cased target contains `.et` and none of `cbe`, `dashen`, `awash`,
and a target that contains `.et` is never `telecom`, `infrastructure` or `unknown`. -/
theorem marker_subsumption (host : Host) (target : String) :
    (("gov.et" ∈ (checkEthiopianContext host target).matchedIndicators ∨
        "com.et" ∈ (checkEthiopianContext host target).matchedIndicators) →
      ".et" ∈ (checkEthiopianContext host target).matchedIndicators) ∧
    ("ethiopianairlines" ∈ (checkEthiopianContext host target).matchedIndicators →
      "ethiopia" ∈ (checkEthiopianContext host target).matchedIndicators) ∧
    ((checkEthiopianContext host target).organizationType = "government" ↔
      ".et".data <:+: (host.toLowerCase target).data ∧
      ¬ "cbe".data <:+: (host.toLowerCase target).data ∧
      ¬ "dashen".data <:+: (host.toLowerCase target).data ∧
      ¬ "awash".data <:+: (host.toLowerCase target).data) ∧
    (".et".data <:+: (host.toLowerCase target).data →
      (checkEthiopianContext host target).organizationType ≠ "telecom" ∧
      (checkEthiopianContext host target).organizationType ≠ "infrastructure" ∧
      (checkEthiopianContext host target).organizationType ≠ "unknown") := by
  have hType : (checkEthiopianContext host target).organizationType =
      determineOrganizationType (checkEthiopianContext host target).matchedIndicators := rfl
  have m1 := marker_mem_matched host target ".et" (by decide)
  have m3 := marker_mem_matched host target "cbe" (by decide)
  have m4 := marker_mem_matched host target "dashen" (by decide)
  have m5 := marker_mem_matched host target "awash" (by decide)
  have m7 := marker_mem_matched host target "ethiopianairlines" (by decide)
  have m2 := marker_mem_matched host target "ethiopia" (by decide)
  have m8 := marker_mem_matched host target "gov.et" (by decide)
  have m9 := marker_mem_matched host target "com.et" (by decide)
  have hsub : ("gov.et" ∈ (checkEthiopianContext host target).matchedIndicators ∨
      "com.et" ∈ (checkEthiopianContext host target).matchedIndicators) →
      ".et" ∈ (checkEthiopianContext host target).matchedIndicators := by
    intro h
    rw [m8, m9] at h
    exact m1.mpr (dot_et_of_gov_or_com _ h)
  refine ⟨hsub, fun h => m2.mpr (ethiopia_of_airlines _ (m7.mp h)), ?_, ?_⟩
  · rw [hType, determineOrganizationType_eq_government_iff, m3, m4, m5, ← m1, not_or, not_or]
    constructor
    · rintro ⟨hfin, hgov⟩
      refine ⟨?_, hfin⟩
      rcases hgov with h | h
      · exact hsub (Or.inl h)
      · exact h
    · rintro ⟨h, hfin⟩
      exact ⟨hfin, Or.inr h⟩
  · intro h
    have hmem := m1.mpr h
    rw [hType, determineOrganizationType_eq]
    split_ifs with h1 h2
    · exact ⟨by decide, by decide, by decide⟩
    · exact ⟨by decide, by decide, by decide⟩
    · exact absurd (Or.inr hmem) h2
    · exact absurd (Or.inr hmem) h2
    · exact absurd (Or.inr hmem) h2

/-- C15, the example: `www.ethiotelecom.et` contains `.et`, `ethiotelecom` and `com.et`,
and is classified `government`. -/
theorem marker_subsumption_witness :
    (checkEthiopianContext asciiHost "www.ethiotelecom.et").matchedIndicators =
      [".et", "ethiotelecom", "com.et"] ∧
    (checkEthiopianContext asciiHost "www.ethiotelecom.et").organizationType = "government" :=
  ⟨by decide,
   (marker_subsumption asciiHost "www.ethiotelecom.et").2.2.1.mpr
     ⟨by decide, by decide, by decide, by decide⟩⟩

/-- C14 at two targets: one without any marker, one with `ethiopia` only. -/
theorem checkEthiopianContext_unknown_witness :
    (checkEthiopianContext asciiHost "example.com").isEthiopian = false ∧
    ((checkEthiopianContext asciiHost "Visit-Ethiopia.org").isEthiopian = true ∧
      (checkEthiopianContext asciiHost "Visit-Ethiopia.org").organizationType = "unknown") :=
  ⟨(checkEthiopianContext_unknown asciiHost "example.com").1.mpr (by decide),
   (checkEthiopianContext_unknown asciiHost "Visit-Ethiopia.org").2.2.1.mpr (by decide)⟩

/-! ## Recommendations -/

/-- `v === 'literal'` holds exactly for the string itself. -/
theorem strictEqStr_iff (v : JSVal) (t : String) :
    v.strictEqStr t = true ↔ v = .str t := by
  cases v <;> simp [JSVal.strictEqStr]

/-- The array `generateRecommendations` builds for an object: the three items of the risk
tier, then the item of the type, if any. -/
theorem recommendations_obj (fields : List (String × JSVal)) (type : String) :
    recommendations (.obj fields) type = .ok
      ((if ((fields.lookup "risk_level").getD .undefined).strictEqStr "high" = true then
          ["Immediate action required - this poses significant security risk",
           "Do not interact with this resource",
           "Report to your security team immediately"]
        else if ((fields.lookup "risk_level").getD .undefined).strictEqStr "medium" = true then
          ["Exercise caution when interacting with this resource",
           "Verify authenticity through alternative channels",
           "Monitor for any suspicious activity"]
        else
          ["This resource appears safe for normal use",
           "Continue practicing good security hygiene",
           "Report any suspicious activity to your security team"]) ++
       (if type = "url" ∧
            (((fields.lookup "organization_context").getD .undefined).getOpt
              "is_ethiopian").truthy = true then
          ["Verify through official Ethiopian organization channels"]
        else if type = "ip" ∧
            ((fields.lookup "ethiopian_context").getD .undefined).truthy = true then
          ["This IP belongs to Ethiopian infrastructure - monitor for unauthorized access"]
        else [])) := by
  simp only [recommendations, get_obj, ok_bind, pure_eq_ok]
  by_cases hu : type = "url"
  · have hi : type ≠ "ip" := by rw [hu]; decide
    by_cases he :
        (((fields.lookup "organization_context").getD .undefined).getOpt
          "is_ethiopian").truthy = true
    · simp [hu, he]
    · simp [hu, he]
  · by_cases hi : type = "ip"
    · by_cases he : ((fields.lookup "ethiopian_context").getD .undefined).truthy = true
      · simp [hu, hi, he]
      · simp [hu, hi, he]
    · simp [hu, hi]

/-- C17: for every response object `generateRecommendations` yields three base
recommendations chosen by `risk_level` alone (`high`, `medium`, anything else), followed by
at most one more: the Ethiopian-organization item exactly when the type is `url` and
`organization_context?.is_ethiopian` is truthy, the Ethiopian-infrastructure item exactly
when the type is `ip` and `ethiopian_context` is truthy (an object is, an absent field is
not).  The output is the `<li>` items of that list, three or four of them, and never both
type-specific items. -/
theorem generateRecommendations_items (fields : List (String × JSVal)) (type : String) :
    ∃ base extra : List String,
      recommendations (.obj fields) type = .ok (base ++ extra) ∧
      generateRecommendations (.obj fields) type =
        .ok (String.join ((base ++ extra).map fun rec => "<li>" ++ rec ++ "</li>")) ∧
      ((fields.lookup "risk_level").getD .undefined = .str "high" →
        base = ["Immediate action required - this poses significant security risk",
                "Do not interact with this resource",
                "Report to your security team immediately"]) ∧
      ((fields.lookup "risk_level").getD .undefined = .str "medium" →
        base = ["Exercise caution when interacting with this resource",
                "Verify authenticity through alternative channels",
                "Monitor for any suspicious activity"]) ∧
      ((fields.lookup "risk_level").getD .undefined ≠ .str "high" →
        (fields.lookup "risk_level").getD .undefined ≠ .str "medium" →
        base = ["This resource appears safe for normal use",
                "Continue practicing good security hygiene",
                "Report any suspicious activity to your security team"]) ∧
      base.length = 3 ∧
      "Verify through official Ethiopian organization channels" ∉ base ∧
      "This IP belongs to Ethiopian infrastructure - monitor for unauthorized access" ∉ base ∧
      (extra = ["Verify through official Ethiopian organization channels"] ↔
        type = "url" ∧
        (((fields.lookup "organization_context").getD .undefined).getOpt
          "is_ethiopian").truthy = true) ∧
      (extra =
          ["This IP belongs to Ethiopian infrastructure - monitor for unauthorized access"] ↔
        type = "ip" ∧ ((fields.lookup "ethiopian_context").getD .undefined).truthy = true) ∧
      (extra = [] ∨ extra = ["Verify through official Ethiopian organization channels"] ∨
        extra =
          ["This IP belongs to Ethiopian infrastructure - monitor for unauthorized access"]) ∧
      ((base ++ extra).length = 3 ∨ (base ++ extra).length = 4) ∧
      (∀ fs, (JSVal.obj fs).truthy = true) ∧ JSVal.undefined.truthy = false := by
  refine ⟨_, _, recommendations_obj fields type, ?_, ?_, ?_, ?_, ?_, ?_, ?_, ?_, ?_, ?_, ?_,
    fun _ => rfl, rfl⟩
  · simp only [generateRecommendations, recommendations_obj, ok_bind, pure_eq_ok]
    rfl
  · intro h
    rw [if_pos ((strictEqStr_iff _ _).mpr h)]
  · intro h
    have hne : ¬ ((fields.lookup "risk_level").getD .undefined).strictEqStr "high" = true := by
      rw [strictEqStr_iff, h]
      intro hc
      exact absurd (JSVal.str.inj hc) (by decide)
    rw [if_neg hne, if_pos ((strictEqStr_iff _ _).mpr h)]
  · intro h1 h2
    rw [if_neg (fun hc => h1 ((strictEqStr_iff _ _).mp hc)),
      if_neg (fun hc => h2 ((strictEqStr_iff _ _).mp hc))]
  · split_ifs <;> rfl
  · split_ifs <;> decide
  · split_ifs <;> decide
  · split_ifs with h1 h2
    · exact ⟨fun _ => h1, fun _ => rfl⟩
    · exact ⟨fun h => absurd h (by decide), fun h => absurd h h1⟩
    · exact ⟨fun h => absurd h (by decide), fun h => absurd h h1⟩
  · split_ifs with h1 h2
    · refine ⟨fun h => absurd h (by decide), fun h => ?_⟩
      rw [h1.1] at h
      exact absurd h.1 (by decide)
    · exact ⟨fun _ => h2, fun _ => rfl⟩
    · exact ⟨fun h => absurd h (by decide), fun h => absurd h h2⟩
  · split_ifs
    · exact Or.inr (Or.inl rfl)
    · exact Or.inr (Or.inr rfl)
    · exact Or.inl rfl
  · split_ifs <;> simp

/-! ## The threat-indicator section -/

/-- A list that starts with `c` still does after something is appended. -/
theorem head?_append_left {l₁ l₂ : List Char} {c : Char} (h : l₁.head? = some c) :
    (l₁ ++ l₂).head? = some c := by
  cases l₁ with
  | nil => cases h
  | cons a as => exact h

/-- A block of the URL report starts with a line break. -/
theorem urlIndicatorTemplate_head (cls icon typeUpper severityUpper description
    confidence : String) :
    (urlIndicatorTemplate cls icon typeUpper severityUpper description
      confidence).data.head? = some '\n' := by
  simp only [urlIndicatorTemplate, String.data_append, List.append_assoc]
  exact head?_append_left rfl

/-- A block of the file report starts with a line break. -/
theorem fileIndicatorTemplate_head (cls icon typeUpper description confidence : String) :
    (fileIndicatorTemplate cls icon typeUpper description confidence).data.head? =
      some '\n' := by
  simp only [fileIndicatorTemplate, String.data_append, List.append_assoc]
  exact head?_append_left rfl

/-- Blocks that start with a line break, at least one of them, do not join to the empty
text nor to the placeholder. -/
theorem join_blocks_ne (blocks : List String) (hne : blocks ≠ [])
    (h : ∀ b ∈ blocks, b.data.head? = some '\n') :
    String.join blocks ≠ "" ∧ String.join blocks ≠ "<p>No threat indicators detected</p>" := by
  cases blocks with
  | nil => exact absurd rfl hne
  | cons b bs =>
    have hb := h b (List.mem_cons_self b bs)
    have hd : (String.join (b :: bs)).data.head? = some '\n' := by
      rw [String.data_join, List.map_cons, List.flatten_cons]
      exact head?_append_left hb
    constructor
    · intro hc
      rw [hc] at hd
      exact absurd hd (by decide)
    · intro hc
      rw [hc] at hd
      exact absurd hd (by decide)

/-- Mapping a callback over an array relates every element to its result, in order. -/
theorem mapItems_forall₂ (f : JSVal → Except JSError String) (R : JSVal → String → Prop)
    (xs : List JSVal) (h : ∀ x ∈ xs, ∃ y, f x = .ok y ∧ R x y) :
    ∃ ys, JSVal.mapItems f xs = .ok ys ∧ List.Forall₂ R xs ys := by
  induction xs with
  | nil => exact ⟨[], rfl, List.Forall₂.nil⟩
  | cons x xs ih =>
    obtain ⟨y, hy, hr⟩ := h x (List.mem_cons_self x xs)
    obtain ⟨ys, hys, hrs⟩ := ih fun z hz => h z (List.mem_cons_of_mem x hz)
    exact ⟨y :: ys, by simp [JSVal.mapItems, hy, hys, ok_bind, pure_eq_ok],
      List.Forall₂.cons hr hrs⟩

/-- The block of the URL report for an indicator of the contract: the template with the
class and the icon its `severity` selects. -/
theorem urlIndicatorBlock_eq (host : Host) (v : JSVal) (h : Contract.indicator v = true) :
    ∃ b, urlIndicatorBlock host v = .ok b ∧
      ∃ typeUpper severityUpper description confidence,
        b = urlIndicatorTemplate (severityClass (v.getOpt "severity"))
          (severityIcon (v.getOpt "severity")) typeUpper severityUpper description
          confidence := by
  cases v with
  | obj fields =>
    simp only [Contract.indicator, Bool.and_eq_true] at h
    obtain ⟨⟨⟨ht, hs⟩, hd⟩, hc⟩ := h
    obtain ⟨d, hd⟩ := toStr_ok_of_primitive host _ hd
    obtain ⟨c, hc⟩ := toStr_ok_of_primitive host _ hc
    unfold Contract.field at ht hs hd hc
    cases hty : (fields.lookup "type").getD .undefined <;>
      simp [hty, Contract.isStr] at ht
    cases hsv : (fields.lookup "severity").getD .undefined <;>
      simp [hsv, Contract.isStr] at hs
    rename_i t s
    have hget : (JSVal.obj fields).getOpt "severity" = .str s := by
      simp [JSVal.getOpt, get_obj, hsv]
    refine ⟨_, ?_, host.toUpperCase t, host.toUpperCase s, d, c, rfl⟩
    simp [urlIndicatorBlock, get_obj, hty, hsv, hd, hc, JSVal.callToUpperCase, ok_bind,
      pure_eq_ok, hget]
  | undefined => simp [Contract.indicator] at h
  | null => simp [Contract.indicator] at h
  | bool b => simp [Contract.indicator] at h
  | num q => simp [Contract.indicator] at h
  | str s => simp [Contract.indicator] at h
  | arr items => simp [Contract.indicator] at h

/-- The block of the file report for an indicator of the contract. -/
theorem fileIndicatorBlock_eq (host : Host) (v : JSVal) (h : Contract.indicator v = true) :
    ∃ b, fileIndicatorBlock host v = .ok b ∧
      ∃ typeUpper description confidence,
        b = fileIndicatorTemplate (severityClass (v.getOpt "severity"))
          (severityIcon (v.getOpt "severity")) typeUpper description confidence := by
  cases v with
  | obj fields =>
    simp only [Contract.indicator, Bool.and_eq_true] at h
    obtain ⟨⟨⟨ht, _⟩, hd⟩, hc⟩ := h
    obtain ⟨d, hd⟩ := toStr_ok_of_primitive host _ hd
    obtain ⟨c, hc⟩ := toStr_ok_of_primitive host _ hc
    unfold Contract.field at ht hd hc
    cases hty : (fields.lookup "type").getD .undefined <;>
      simp [hty, Contract.isStr] at ht
    rename_i t
    have hget : (JSVal.obj fields).getOpt "severity" =
        (fields.lookup "severity").getD .undefined := by
      simp [JSVal.getOpt, get_obj]
    refine ⟨_, ?_, host.toUpperCase t, d, c, rfl⟩
    simp [fileIndicatorBlock, get_obj, hty, hd, hc, JSVal.callToUpperCase, ok_bind,
      pure_eq_ok, hget]
  | undefined => simp [Contract.indicator] at h
  | null => simp [Contract.indicator] at h
  | bool b => simp [Contract.indicator] at h
  | num q => simp [Contract.indicator] at h
  | str s => simp [Contract.indicator] at h
  | arr items => simp [Contract.indicator] at h

/-- The indicator section and the count for a `threat_indicators` field that holds the
list `L`, or is missing (then `L` is empty): the blocks of the elements of `L` in order,
joined, and the length of `L`. -/
theorem threatsHTML_eq (host : Host) (ti : JSVal) (L : List JSVal)
    (block : JSVal → Except JSError String) (R : JSVal → String → Prop)
    (hL : ti = .arr L ∨ ((ti = .undefined ∨ ti = .null) ∧ L = []))
    (hb : ∀ v ∈ L, ∃ b, block v = .ok b ∧ R v b) :
    ∃ blocks, List.Forall₂ R L blocks ∧
      threatsHTML host ti block = .ok (String.join blocks) ∧
      indicatorCount host ti = .ok (host.numberToString L.length) := by
  rcases hL with h | ⟨h | h, hnil⟩
  · subst h
    obtain ⟨blocks, hm, hr⟩ := mapItems_forall₂ block R L hb
    refine ⟨blocks, hr, ?_, ?_⟩
    · cases L with
      | nil =>
        cases hr
        simp [threatsHTML, JSVal.truthy, JSVal.get, gtZero_num, ok_bind, pure_eq_ok,
          String.join]
      | cons x xs =>
        have hnn : (0 : ℚ) ≤ (xs.length : ℚ) := Nat.cast_nonneg _
        have hpos : ¬ ((xs.length : ℚ) + 1 ≤ 0) := by linarith
        simp [threatsHTML, JSVal.truthy, JSVal.get, gtZero_num, hpos, JSVal.mapJoin, hm,
          ok_bind, pure_eq_ok]
    · cases L with
      | nil =>
        simp [indicatorCount, JSVal.getOpt, JSVal.get, JSVal.orElse, JSVal.truthy,
          JSVal.toStr]
      | cons x xs =>
        have hnn : (0 : ℚ) ≤ (xs.length : ℚ) := Nat.cast_nonneg _
        have hne : ¬ ((xs.length : ℚ) + 1 = 0) := by
          intro hc
          linarith
        simp [indicatorCount, JSVal.getOpt, JSVal.get, JSVal.orElse, JSVal.truthy,
          JSVal.toStr, hne]
  · subst h hnil
    exact ⟨[], List.Forall₂.nil,
      by simp [threatsHTML, JSVal.truthy, pure_eq_ok, String.join],
      by simp [indicatorCount, JSVal.getOpt, JSVal.get, JSVal.orElse, JSVal.truthy,
        JSVal.toStr]⟩
  · subst h hnil
    exact ⟨[], List.Forall₂.nil,
      by simp [threatsHTML, JSVal.truthy, pure_eq_ok, String.join],
      by simp [indicatorCount, JSVal.getOpt, JSVal.get, JSVal.orElse, JSVal.truthy,
        JSVal.toStr]⟩

/-- `generateURLAnalysisContent` on the fields of the URL endpoint: the template, filled
with the indicator section and the count. -/
theorem generateURLAnalysisContent_eq (host : Host) (fields : List (String × JSVal))
    (horg : Contract.record ["is_ethiopian", "organization_type", "verified"]
      (Contract.field fields "organization_context") = true)
    (hintel : Contract.record ["openphish", "urlhaus"]
      (Contract.field fields "international_intel") = true) :
    ∃ org openphish urlhaus, ∀ threats count,
      threatsHTML host ((fields.lookup "threat_indicators").getD .undefined)
        (urlIndicatorBlock host) = .ok threats →
      indicatorCount host ((fields.lookup "threat_indicators").getD .undefined) = .ok count →
      generateURLAnalysisContent host (.obj fields) =
        .ok (urlContentTemplate org count (orPlaceholder threats) openphish urlhaus) := by
  obtain ⟨o, ho⟩ := toStr_ok_of_primitive host _
    (orElse_primitive _ (.str "Not detected")
      (getOpt_record _ _ "openphish" hintel (by simp)) rfl)
  obtain ⟨u, hu⟩ := toStr_ok_of_primitive host _
    (orElse_primitive _ (.str "Not detected")
      (getOpt_record _ _ "urlhaus" hintel (by simp)) rfl)
  unfold Contract.field at horg ho hu
  by_cases hto : ((fields.lookup "organization_context").getD .undefined).truthy = true
  · obtain ⟨w1, hw1, _⟩ := get_record _ _ "is_ethiopian" horg hto (by simp)
    obtain ⟨w2, hw2, hp2⟩ := get_record _ _ "organization_type" horg hto (by simp)
    obtain ⟨w3, hw3, _⟩ := get_record _ _ "verified" horg hto (by simp)
    obtain ⟨s2, hs2⟩ := toStr_ok_of_primitive host w2 hp2
    refine ⟨orgContextTemplate (if w1.truthy then "Yes" else "No") s2
      (if w3.truthy then verifiedTemplate else ""), o, u, fun t c ht hc => ?_⟩
    simp [generateURLAnalysisContent, get_obj, hto, hw1, hw2, hw3, hs2, ht, hc, ho, hu,
      ok_bind, pure_eq_ok]
  · refine ⟨"", o, u, fun t c ht hc => ?_⟩
    simp [generateURLAnalysisContent, get_obj, hto, ht, hc, ho, hu, ok_bind, pure_eq_ok]

/-- `generateFileAnalysisContent` on the fields of the file endpoint: the template,
filled with the indicator section and the count. -/
theorem generateFileAnalysisContent_eq (host : Host) (fields : List (String × JSVal))
    (hname : Contract.leaf fields "filename" = true)
    (hsize : Contract.leaf fields "file_size" = true)
    (htype : Contract.leaf fields "file_type" = true)
    (hhash : Contract.leaf fields "file_hash" = true)
    (heng : Contract.engines (Contract.field fields "analysis_engines") = true) :
    ∃ filename sizeKB file_type file_hash engines, ∀ threats count,
      threatsHTML host ((fields.lookup "threat_indicators").getD .undefined)
        (fileIndicatorBlock host) = .ok threats →
      indicatorCount host ((fields.lookup "threat_indicators").getD .undefined) = .ok count →
      generateFileAnalysisContent host (.obj fields) =
        .ok (fileContentTemplate filename sizeKB file_type file_hash engines count
          (orPlaceholder threats)) := by
  obtain ⟨a1, h1⟩ := toStr_ok_of_primitive host _ hname
  obtain ⟨a2, h2⟩ := toNumber_ok_of_primitive host _ hsize
  obtain ⟨a3, h3⟩ := toStr_ok_of_primitive host _ htype
  obtain ⟨a4, h4⟩ := toStr_ok_of_primitive host _ hhash
  unfold Contract.field at h1 h2 h3 h4 heng
  cases he : (fields.lookup "analysis_engines").getD .undefined with
  | arr items =>
    rw [he] at heng
    simp only [Contract.engines, List.all_eq_true] at heng
    obtain ⟨e, hes⟩ := mapJoin_ok items (engineBadge host)
      fun x hx => engineBadge_ok host x (heng x hx)
    refine ⟨a1, host.toFixed2 (a2.map fun q => q / 1024), a3, a4, e, fun t c ht hc => ?_⟩
    simp [generateFileAnalysisContent, get_obj, he, hes, ht, hc, h1, h2, h3, h4, ok_bind,
      pure_eq_ok]
  | undefined => simp [he, Contract.engines] at heng
  | null => simp [he, Contract.engines] at heng
  | bool b => simp [he, Contract.engines] at heng
  | num q => simp [he, Contract.engines] at heng
  | str s => simp [he, Contract.engines] at heng
  | obj fs => simp [he, Contract.engines] at heng

/-- The text of the indicator section for the joined blocks of the list `L`. -/
theorem orPlaceholder_join (L : List JSVal) (blocks : List String)
    (R : JSVal → String → Prop) (hr : List.Forall₂ R L blocks)
    (hh : ∀ b ∈ blocks, b.data.head? = some '\n') :
    orPlaceholder (String.join blocks) =
      (if L.isEmpty then "<p>No threat indicators detected</p>" else String.join blocks) ∧
    (L ≠ [] → String.join blocks ≠ "<p>No threat indicators detected</p>") := by
  cases hr with
  | nil => exact ⟨by simp [orPlaceholder, String.join], fun h => absurd rfl h⟩
  | cons h1 h2 =>
    rename_i v b vs bs
    obtain ⟨hne, hph⟩ := join_blocks_ne (b :: bs) (List.cons_ne_nil b bs) hh
    refine ⟨?_, fun _ => hph⟩
    simp only [List.isEmpty_cons, Bool.false_eq_true, if_false]
    unfold orPlaceholder
    rw [if_pos hne]

/-- The members of the second list of a `Forall₂` are related to something. -/
theorem forall₂_right {R : JSVal → String → Prop} {L : List JSVal} {blocks : List String}
    (hr : List.Forall₂ R L blocks) : ∀ b ∈ blocks, ∃ v, R v b := by
  induction hr with
  | nil => intro b hb; cases hb
  | cons h _ ih =>
    intro b hb
    rcases List.mem_cons.mp hb with rfl | hb
    · exact ⟨_, h⟩
    · exact ih b hb

/-- The entries of a `threat_indicators` field of the contract are indicators. -/
theorem indicators_all (ti : JSVal) (L : List JSVal)
    (hL : ti = .arr L ∨ ((ti = .undefined ∨ ti = .null) ∧ L = []))
    (h : Contract.indicators ti = true) : ∀ v ∈ L, Contract.indicator v = true := by
  rcases hL with h1 | ⟨_, h1⟩
  · subst h1
    simpa only [Contract.indicators, List.all_eq_true] using h
  · subst h1
    intro v hv
    cases hv

/-- The class of an indicator block, by severity. -/
theorem severityClass_cases :
    severityClass (.str "high") = "result-malicious" ∧
    severityClass (.str "medium") = "result-suspicious" ∧
    ∀ v : JSVal, v ≠ .str "high" → v ≠ .str "medium" → severityClass v = "result-clean" := by
  refine ⟨rfl, rfl, fun v h1 h2 => ?_⟩
  unfold severityClass
  rw [if_neg (fun hc => h1 ((strictEqStr_iff _ _).mp hc)),
    if_neg (fun hc => h2 ((strictEqStr_iff _ _).mp hc))]

/-- C16: for a URL or file response of the success shape whose `threat_indicators` is the
list `L`, or is missing (then `L` is empty), `generateURLAnalysisContent` and
`generateFileAnalysisContent` return HTML that holds the heading `Threat Indicators (n)`
with `n` the length of `L` and, right after the header of that section, the indicator
section: the placeholder `No threat indicators detected` exactly when `L` is empty, else
one block per element of `L`, joined in the order of `L`.  Each block is what the callback
returns for its element and opens with a `result-item` element of the class its `severity`
selects (`result-malicious` for `high`, `result-suspicious` for `medium`, `result-clean`
otherwise). -/
theorem threat_indicators_rendered (host : Host) (fields : List (String × JSVal))
    (L : List JSVal)
    (hL : (fields.lookup "threat_indicators").getD .undefined = .arr L ∨
      (((fields.lookup "threat_indicators").getD .undefined = .undefined ∨
        (fields.lookup "threat_indicators").getD .undefined = .null) ∧ L = [])) :
    (Contract.successShape "url" (.obj fields) = true →
      ∃ blocks org openphish urlhaus pre post,
        blocks.length = L.length ∧
        List.Forall₂ (fun v b => urlIndicatorBlock host v = .ok b ∧
          (∃ typeUpper severityUpper description confidence,
            b = urlIndicatorTemplate (severityClass (v.getOpt "severity"))
              (severityIcon (v.getOpt "severity")) typeUpper severityUpper description
              confidence) ∧
          ∃ rest, b = "\n            <div class=\"result-item " ++
            severityClass (v.getOpt "severity") ++ "\">" ++ rest) L blocks ∧
        generateURLAnalysisContent host (.obj fields) =
          .ok (urlContentTemplate org (host.numberToString L.length)
            (if L.isEmpty then "<p>No threat indicators detected</p>"
             else String.join blocks)
            openphish urlhaus) ∧
        urlContentTemplate org (host.numberToString L.length)
            (if L.isEmpty then "<p>No threat indicators detected</p>"
             else String.join blocks)
            openphish urlhaus =
          pre ++ "<h3>Threat Indicators (" ++ host.numberToString L.length ++
            ")</h3>\n            </div>\n            " ++
            (if L.isEmpty then "<p>No threat indicators detected</p>"
             else String.join blocks) ++ post ∧
        (L ≠ [] → String.join blocks ≠ "<p>No threat indicators detected</p>")) ∧
    (Contract.successShape "file" (.obj fields) = true →
      ∃ blocks filename sizeKB file_type file_hash engines pre post,
        blocks.length = L.length ∧
        List.Forall₂ (fun v b => fileIndicatorBlock host v = .ok b ∧
          (∃ typeUpper description confidence,
            b = fileIndicatorTemplate (severityClass (v.getOpt "severity"))
              (severityIcon (v.getOpt "severity")) typeUpper description confidence) ∧
          ∃ rest, b = "\n            <div class=\"result-item " ++
            severityClass (v.getOpt "severity") ++ "\">" ++ rest)
          L blocks ∧
        generateFileAnalysisContent host (.obj fields) =
          .ok (fileContentTemplate filename sizeKB file_type file_hash engines
            (host.numberToString L.length)
            (if L.isEmpty then "<p>No threat indicators detected</p>"
             else String.join blocks)) ∧
        fileContentTemplate filename sizeKB file_type file_hash engines
            (host.numberToString L.length)
            (if L.isEmpty then "<p>No threat indicators detected</p>"
             else String.join blocks) =
          pre ++ "<h3>Threat Indicators (" ++ host.numberToString L.length ++
            ")</h3>\n            </div>\n            " ++
            (if L.isEmpty then "<p>No threat indicators detected</p>"
             else String.join blocks) ++ post ∧
        (L ≠ [] → String.join blocks ≠ "<p>No threat indicators detected</p>")) ∧
    (severityClass (.str "high") = "result-malicious" ∧
      severityClass (.str "medium") = "result-suspicious" ∧
      ∀ v : JSVal, v ≠ .str "high" → v ≠ .str "medium" →
        severityClass v = "result-clean") := by
  refine ⟨fun hs => ?_, fun hs => ?_, severityClass_cases⟩
  · simp only [Contract.successShape, Bool.and_eq_true, if_true] at hs
    obtain ⟨_, ⟨horg, hti⟩, hintel⟩ := hs
    have hind := indicators_all _ L hL hti
    obtain ⟨blocks, hr, ht, hc⟩ := threatsHTML_eq host _ L (urlIndicatorBlock host)
      (fun v b => urlIndicatorBlock host v = .ok b ∧
          (∃ typeUpper severityUpper description confidence,
            b = urlIndicatorTemplate (severityClass (v.getOpt "severity"))
              (severityIcon (v.getOpt "severity")) typeUpper severityUpper description
              confidence) ∧
          ∃ rest, b = "\n            <div class=\"result-item " ++
            severityClass (v.getOpt "severity") ++ "\">" ++ rest) hL
      (fun v hv => by
        obtain ⟨b, hb, t, s, d, c, hex⟩ := urlIndicatorBlock_eq host v (hind v hv)
        obtain ⟨rest, hrest⟩ := urlIndicatorTemplate_class
          (severityClass (v.getOpt "severity")) (severityIcon (v.getOpt "severity")) t s d c
        exact ⟨b, hb, hb, ⟨t, s, d, c, hex⟩, rest, hex.trans hrest⟩)
    obtain ⟨org, op, uh, hgen⟩ := generateURLAnalysisContent_eq host fields horg hintel
    have heads : ∀ b ∈ blocks, b.data.head? = some '\n' := by
      intro b hb
      obtain ⟨v, _, ⟨t, s, d, c, rfl⟩, _⟩ := forall₂_right hr b hb
      exact urlIndicatorTemplate_head _ _ _ _ _ _
    obtain ⟨hor, hph⟩ := orPlaceholder_join L blocks _ hr heads
    obtain ⟨pre, post, hsec⟩ := urlContentTemplate_section org
      (host.numberToString L.length)
      (if L.isEmpty then "<p>No threat indicators detected</p>" else String.join blocks) op uh
    refine ⟨blocks, org, op, uh, pre, post, hr.length_eq.symm, hr, ?_, hsec, hph⟩
    rw [hgen _ _ ht hc, hor]
  · have h1 : ¬ ("file" = "url") := by decide
    have h2 : ¬ ("file" = "ip") := by decide
    simp only [Contract.successShape, Bool.and_eq_true, if_neg h1, if_neg h2, if_true] at hs
    obtain ⟨_, ⟨⟨⟨⟨hname, hsize⟩, htype⟩, hhash⟩, heng⟩, hti⟩ := hs
    have hind := indicators_all _ L hL hti
    obtain ⟨blocks, hr, ht, hc⟩ := threatsHTML_eq host _ L (fileIndicatorBlock host)
      (fun v b => fileIndicatorBlock host v = .ok b ∧
          (∃ typeUpper description confidence,
            b = fileIndicatorTemplate (severityClass (v.getOpt "severity"))
              (severityIcon (v.getOpt "severity")) typeUpper description confidence) ∧
          ∃ rest, b = "\n            <div class=\"result-item " ++
            severityClass (v.getOpt "severity") ++ "\">" ++ rest) hL
      (fun v hv => by
        obtain ⟨b, hb, t, d, c, hex⟩ := fileIndicatorBlock_eq host v (hind v hv)
        obtain ⟨rest, hrest⟩ := fileIndicatorTemplate_class
          (severityClass (v.getOpt "severity")) (severityIcon (v.getOpt "severity")) t d c
        exact ⟨b, hb, hb, ⟨t, d, c, hex⟩, rest, hex.trans hrest⟩)
    obtain ⟨fname, size, ftype, fhash, eng, hgen⟩ :=
      generateFileAnalysisContent_eq host fields hname hsize htype hhash heng
    have heads : ∀ b ∈ blocks, b.data.head? = some '\n' := by
      intro b hb
      obtain ⟨v, _, ⟨t, d, c, rfl⟩, _⟩ := forall₂_right hr b hb
      exact fileIndicatorTemplate_head _ _ _ _ _
    obtain ⟨hor, hph⟩ := orPlaceholder_join L blocks _ hr heads
    obtain ⟨pre, post, hsec⟩ := fileContentTemplate_section fname size ftype fhash eng
      (host.numberToString L.length)
      (if L.isEmpty then "<p>No threat indicators detected</p>" else String.join blocks)
    refine ⟨blocks, fname, size, ftype, fhash, eng, pre, post, hr.length_eq.symm, hr, ?_,
      hsec, hph⟩
    rw [hgen _ _ ht hc, hor]

/-- C16 at a URL response with one high-severity indicator: the HTML holds the heading with
the count 1 and, as the section, the one block, which is not the placeholder and opens with
a `result-malicious` item. -/
theorem threat_indicators_rendered_witness :
    ∃ html blocks pre post rest,
      generateURLAnalysisContent asciiHost
        (.obj [("risk_level", .str "high"), ("confidence", .num 87),
          ("threat_indicators", .arr [.obj [("type", .str "phishing"),
            ("severity", .str "high"), ("description", .str "Known phishing domain"),
            ("confidence", .num 90)]])]) = .ok html ∧
      html = pre ++ "<h3>Threat Indicators (" ++ asciiHost.numberToString 1 ++
        ")</h3>\n            </div>\n            " ++ String.join blocks ++ post ∧
      blocks = ["\n            <div class=\"result-item " ++ "result-malicious" ++ "\">" ++ rest] ∧
      String.join blocks ≠ "<p>No threat indicators detected</p>" := by
  obtain ⟨blocks, org, op, uh, pre, post, _, hr, hgen, hsec, hne⟩ :=
    (threat_indicators_rendered asciiHost
      [("risk_level", .str "high"), ("confidence", .num 87),
        ("threat_indicators", .arr [.obj [("type", .str "phishing"),
          ("severity", .str "high"), ("description", .str "Known phishing domain"),
          ("confidence", .num 90)]])]
      [.obj [("type", .str "phishing"), ("severity", .str "high"),
        ("description", .str "Known phishing domain"), ("confidence", .num 90)]]
      (Or.inl rfl)).1 (by decide)
  cases hr with
  | cons h1 h2 =>
    cases h2
    obtain ⟨_, _, rest, hb⟩ := h1
    exact ⟨_, _, pre, post, rest, hgen, hsec, by rw [hb]; rfl, hne (List.cons_ne_nil _ _)⟩

end OpenCyber
